import Mathlib

/-!
# Verification of the android-parser manifest compiler

A shallow embedding, in Lean 4, of the parts of the `android_parser` Python
package that the specification talks about:

* `android_parser/utilities/xml.py` — attribute coercion (`get_attributes`),
* `android_parser/components/intent_filter.py` — `Data` normalization and URI
  derivation, `Category`/`Action` asset types, the create-pass dedup loops,
* `android_parser/components/manifest.py` — `Manifest.from_xml`,
  `get_sdk_versions` and `Manifest.__post_init__`,
* `android_parser/components/application.py` — `Application.from_xml`,
  `collect_applications` and `Application.__post_init__`,
* `android_parser/components/filesystem.py` — `Directory`, `create_sub_dir`
  and the `_path` absolute-path computation,
* `android_parser/main.py` — `AndroidParser.create_associaton` and
  `AndroidParser.create_object`.

Python values and Python exceptions are made explicit: attribute values are a
small dynamic-value type `PyVal`, and code that can raise returns
`Except PyErr _`.  The external `securicad.model` collaborator (the graph
sink) is modelled from the specification's description of it: a node catalog
membership test, fresh integer node ids, and `connect` signalling
`DuplicateAssociationException` on a repeated edge and
`InvalidAssetException` on an incompatible one.

Known deliberate approximations, stated once here:

* `str.isnumeric`, `int(...)` and `float(...)` are modelled over a
  documented repertoire of Unicode numerics: `pyCharDecimal` covers ASCII
  plus common decimal-digit (`Nd`) blocks, and `pyCharNumericOnly` a
  representative set of numeric-but-not-decimal characters (superscripts,
  fractions, Roman numerals, …), so the branch where `isnumeric()` holds
  but the unguarded `int(attrib)` raises `ValueError` is represented —
  `get_attributes` is therefore fallible in the embedding, as in the
  source;
* `float(...)` acceptance (`pyFloatParsable`) covers signs, Unicode decimal
  digits, decimal points, exponents, numeric-separator underscores between
  digits, and `inf`/`infinity`/`nan`;
* Python `set` objects are modelled as insertion-ordered duplicate-free
  lists; statements about "sets" of strings are made order-independent by
  phrasing them through membership or `List.toFinset`;
* `Data` fields that the manifest parser stores are kept as `Option String`
  (a non-string attribute value is rendered to its Python string form at the
  `from_xml` boundary, where the source would render it inside an f-string).
-/

set_option autoImplicit false

namespace AndroidParser

/-- A single quote character, used to build Python `repr` strings. -/
def sq : String := (Char.ofNat 39).toString

/-- Python `str(list_of_str)`: `repr` with single-quoted elements,
separated by a comma and a space, in square brackets. -/
def pyListRepr (xs : List String) : String :=
  "[" ++ String.intercalate ", " (xs.map (fun s => sq ++ s ++ sq)) ++ "]"

/-- The dynamic values produced by `get_attributes` (`utilities/xml.py`):
Python `str`, `int`, `bool`, or `float`.  A float keeps its source literal:
no claim depends on float arithmetic, only on which branch produced it. -/
inductive PyVal : Type where
  | str (s : String)
  | int (n : Int)
  | bool (b : Bool)
  | float (lit : String)
  deriving DecidableEq, Repr

/-- Python truthiness of a `PyVal` (`""`, `0`, `False` are falsy). -/
def PyVal.truthy : PyVal → Bool
  | .str s => s ≠ ""
  | .int n => n ≠ 0
  | .bool b => b
  | .float lit => lit ≠ "0.0"

/-- Python `str(...)` rendering of a `PyVal` as it appears inside f-strings. -/
def PyVal.render : PyVal → String
  | .str s => s
  | .int n => toString n
  | .bool b => if b then "True" else "False"
  | .float lit => lit

/-- Attribute maps: insertion-ordered Python dicts from `get_attributes`. -/
abbrev Attrs := List (String × PyVal)

/-- Python dict assignment `d[k] = v`: overwrite in place if the key exists,
append otherwise (insertion order preserved). -/
def dictInsert (d : Attrs) (k : String) (v : PyVal) : Attrs :=
  if d.any (fun p => p.1 = k) then
    d.map (fun p => if p.1 = k then (k, v) else p)
  else
    d ++ [(k, v)]

/-- Python dict lookup `d.get(k)`. -/
def Attrs.get (d : Attrs) (k : String) : Option PyVal :=
  (d.find? (fun p => p.1 = k)).map Prod.snd

/-- Python dict lookup with default `d.get(k, v)`. -/
def Attrs.getD (d : Attrs) (k : String) (v : PyVal) : PyVal :=
  (d.get k).getD v

/-- Python `k in d`. -/
def Attrs.hasKey (d : Attrs) (k : String) : Bool :=
  d.any (fun p => p.1 = k)

/-- Python `d.setdefault(k, v)`. -/
def Attrs.setdefault (d : Attrs) (k : String) (v : PyVal) : Attrs :=
  if d.hasKey k then d else d ++ [(k, v)]

/-- Splitting a character list on a separator character, the way Python
`str.split(sep)` does (`"".split(sep)` gives `[""]`).  Structural recursion
so that concrete instances reduce inside `decide`/`rfl` proofs. -/
def splitOnCharL (c : Char) : List Char → List (List Char)
  | [] => [[]]
  | x :: xs =>
    let rest := splitOnCharL c xs
    if x = c then [] :: rest
    else
      match rest with
      | r :: rs => (x :: r) :: rs
      | [] => [[x]]

/-- `String` wrapper of `splitOnCharL`. -/
def splitOnChar (c : Char) (s : String) : List String :=
  (splitOnCharL c s.data).map String.mk

/-- The namespace strip in `get_attributes`: `key.split("}")[1]`, keeping the
key unchanged when there is no closing brace (the `IndexError` branch). -/
def stripNs (key : String) : String :=
  match splitOnChar (Char.ofNat 125) key with
  | _ :: second :: _ => second
  | _ => key

/-! ## Python exceptions the embedded code can raise -/

/-- The exceptions the embedded code paths can raise.  `componentNotFound`,
`missingAndroidParser` and `missingAttributes` are the repo's own exception
classes; the rest are Python builtins; `duplicateAssociation` and
`invalidAsset` are the collaborator's signals. -/
inductive PyErr : Type where
  | attributeError
  | valueError
  | typeError
  | keyError
  | componentNotFound
  | duplicateAssociation
  | invalidAsset
  | missingAndroidParser
  | missingAttributes
  deriving DecidableEq, Repr

/-- Unicode decimal digits (category `Nd`) — the characters `int(...)` and
`float(...)` accept as digits.  Modelled over ASCII `0-9` and a documented
repertoire of common `Nd` blocks (Arabic-Indic, Extended Arabic-Indic,
Devanagari, Bengali, fullwidth). -/
def pyCharDecimal (c : Char) : Bool :=
  (48 ≤ c.toNat && c.toNat ≤ 57) ||
  (0x660 ≤ c.toNat && c.toNat ≤ 0x669) ||
  (0x6F0 ≤ c.toNat && c.toNat ≤ 0x6F9) ||
  (0x966 ≤ c.toNat && c.toNat ≤ 0x96F) ||
  (0x9E6 ≤ c.toNat && c.toNat ≤ 0x9EF) ||
  (0xFF10 ≤ c.toNat && c.toNat ≤ 0xFF19)

/-- Characters `str.isnumeric` counts that are *not* decimal digits
(categories `No`/`Nl`: superscripts, vulgar fractions, sub/superscript
digits, Roman numerals, circled numbers).  `int(attrib)` raises
`ValueError` on any string containing one.  Modelled over a documented
representative repertoire. -/
def pyCharNumericOnly (c : Char) : Bool :=
  c.toNat = 0xB2 || c.toNat = 0xB3 || c.toNat = 0xB9 ||
  (0xBC ≤ c.toNat && c.toNat ≤ 0xBE) ||
  c.toNat = 0x2070 || (0x2074 ≤ c.toNat && c.toNat ≤ 0x2079) ||
  (0x2080 ≤ c.toNat && c.toNat ≤ 0x2089) ||
  (0x2160 ≤ c.toNat && c.toNat ≤ 0x2182) ||
  (0x2460 ≤ c.toNat && c.toNat ≤ 0x2473)

/-- Python `str.isnumeric`: non-empty and every character numeric —
decimal digits or numeric-but-not-decimal characters. -/
def pyIsNumeric (s : String) : Bool :=
  s.data ≠ [] && s.data.all (fun c => pyCharDecimal c || pyCharNumericOnly c)

/-- Whether `int(attrib)` succeeds on an `isnumeric()`-true string: it does
exactly when every character is a decimal digit (`Nd`); a numeric-only
character such as `²` makes it raise `ValueError`. -/
def pyIntAccepts (s : String) : Bool :=
  s.data ≠ [] && s.data.all pyCharDecimal

/-- The digit value of a decimal character (any modelled `Nd` block). -/
def pyCharDigitVal (c : Char) : Nat :=
  if 48 ≤ c.toNat && c.toNat ≤ 57 then c.toNat - 48
  else if 0x660 ≤ c.toNat && c.toNat ≤ 0x669 then c.toNat - 0x660
  else if 0x6F0 ≤ c.toNat && c.toNat ≤ 0x6F9 then c.toNat - 0x6F0
  else if 0x966 ≤ c.toNat && c.toNat ≤ 0x96F then c.toNat - 0x966
  else if 0x9E6 ≤ c.toNat && c.toNat ≤ 0x9EF then c.toNat - 0x9E6
  else if 0xFF10 ≤ c.toNat && c.toNat ≤ 0xFF19 then c.toNat - 0xFF10
  else 0

/-- Decimal-digit string to `Nat`: the value `int(attrib)` produces when
it succeeds. -/
def pyParseNat (s : String) : Nat :=
  s.data.foldl (fun a c => a * 10 + pyCharDigitVal c) 0

/-- ASCII lower-casing of one character (enough for `float(...)` literals). -/
def asciiLower (c : Char) : Char :=
  if 65 ≤ c.toNat && c.toNat ≤ 90 then Char.ofNat (c.toNat + 32) else c

/-- Numeric-separator rule of Python number literals: every underscore
must sit directly between two decimal digits.  `usOkAux` walks the list
remembering the previous character. -/
def usOkAux (prev : Char) : List Char → Bool
  | [] => true
  | c :: cs =>
    if c = Char.ofNat 95 then
      pyCharDecimal prev &&
      (match cs with
        | d :: _ => pyCharDecimal d
        | [] => false) &&
      usOkAux c cs
    else usOkAux c cs

/-- Underscores (if any) are all between decimal digits; a leading
underscore is rejected outright. -/
def usOk : List Char → Bool
  | [] => true
  | c :: cs => if c = Char.ofNat 95 then false else usOkAux c cs

/-- The mantissa accepted by Python `float(...)` (underscores already
removed): decimal digits with at most one decimal point and at least one
digit overall. -/
def pyFloatMantissa (cs : List Char) : Bool :=
  match splitOnCharL (Char.ofNat 46) cs with
  | [a] => a ≠ [] && a.all pyCharDecimal
  | [a, b] => a.all pyCharDecimal && b.all pyCharDecimal && (a ≠ [] || b ≠ [])
  | _ => false

/-- Strip one optional leading sign and test the remainder. -/
def pySignedL (cs : List Char) (body : List Char → Bool) : Bool :=
  match cs with
  | c :: rest => if c = '+' || c = '-' then body rest else body cs
  | [] => body []

/-- Model of "`float(attrib)` does not raise `ValueError`": optional
surrounding whitespace and a sign, then a decimal mantissa (Unicode
decimal digits, numeric-separator underscores between digits) with
optional exponent, or one of `inf`/`infinity`/`nan` (case-insensitive). -/
def pyFloatParsable (s : String) : Bool :=
  let t := ((s.data.dropWhile Char.isWhitespace).reverse.dropWhile
    Char.isWhitespace).reverse
  pySignedL t fun r =>
    let rl := r.map asciiLower
    if rl = "inf".data || rl = "infinity".data || rl = "nan".data then true
    else
      usOk rl &&
      (match splitOnCharL (Char.ofNat 101)
          (rl.filter (fun c => c ≠ Char.ofNat 95)) with
        | [m] => pyFloatMantissa m
        | [m, ex] =>
          pyFloatMantissa m &&
            pySignedL ex (fun x => x ≠ [] && x.all pyCharDecimal)
        | _ => false)

/-- `any(x in key for x in ["-", "."])` from `get_attributes`. -/
def containsDashOrDot (key : String) : Bool :=
  key.data.any (fun c => c = Char.ofNat 45 || c = Char.ofNat 46)

/-- The value-coercion chain of `get_attributes` (`utilities/xml.py`,
second loop): when `attrib.isnumeric()` holds, the *unguarded* `int(attrib)`
runs — it yields an integer on all-decimal strings and raises an uncaught
`ValueError` on numeric-but-not-decimal ones (e.g. `²`); else the float
attempt when the key contains `-` or `.` (its `ValueError` is caught and
the string kept); else the `"false"`/`"true"` literals; else the string is
kept. -/
def coerceAttrVal (key v : String) : Except PyErr PyVal :=
  if pyIsNumeric v then
    (if pyIntAccepts v then .ok (.int (pyParseNat v)) else .error .valueError)
  else if containsDashOrDot key then
    (if pyFloatParsable v then .ok (.float v) else .ok (.str v))
  else if v = "false" then .ok (.bool false)
  else if v = "true" then .ok (.bool true)
  else .ok (.str v)

/-- The second loop of `get_attributes`: coerce every value in order,
propagating the first uncaught `ValueError`. -/
def coerceAll : Attrs → Except PyErr Attrs
  | [] => .ok []
  | (k, .str v) :: rest => do
    let val ← coerceAttrVal k v
    let rest2 ← coerceAll rest
    .ok ((k, val) :: rest2)
  | (k, x) :: rest => do
    let rest2 ← coerceAll rest
    .ok ((k, x) :: rest2)

/-- `get_attributes(tag)` (`utilities/xml.py`): strip namespace prefixes
into a dict (later duplicates overwrite), then coerce every value —
raising `ValueError` out of the function on an isnumeric-but-not-decimal
value. -/
def getAttributes (raw : List (String × String)) : Except PyErr Attrs :=
  coerceAll (raw.foldl (fun d kv => dictInsert d (stripNs kv.1) (.str kv.2)) [])

/-- Decidable equality for `Except`, so concrete coercion results can be
settled by `decide`. -/
instance exceptDecEq {ε α : Type} [DecidableEq ε] [DecidableEq α] :
    DecidableEq (Except ε α) := fun a b =>
  match a, b with
  | .ok x, .ok y =>
    if h : x = y then isTrue (by rw [h])
    else isFalse (by intro hc; injection hc; exact h (by assumption))
  | .error e, .error f =>
    if h : e = f then isTrue (by rw [h])
    else isFalse (by intro hc; injection hc; exact h (by assumption))
  | .ok _, .error _ => isFalse (by intro hc; exact Except.noConfusion hc)
  | .error _, .ok _ => isFalse (by intro hc; exact Except.noConfusion hc)

/-- C7 counterexample: the claim says a value is coerced to a boolean
exactly when it matches the literals `true`/`false`, and that
`get_attributes` never raises.  But the float branch runs first whenever
the key contains `-` or `.`, so `zoom-level="true"` stays the string
`"true"`; and an isnumeric-but-not-decimal value such as `²` reaches the
unguarded `int(attrib)`, which raises an uncaught `ValueError`. -/
theorem claim_C7_counterexample :
    getAttributes [("zoom-level", "true")]
      = .ok [("zoom-level", PyVal.str "true")] ∧
    PyVal.str "true" ≠ PyVal.bool true ∧
    getAttributes [("k", "²")] = .error .valueError := by
  refine ⟨rfl, by decide, rfl⟩

/-- C7 (amended): the coercion of `get_attributes`, branch by branch.
An attribute becomes an `int` exactly when the whole value is
`isnumeric()` and all its characters are decimal digits; when the value is
`isnumeric()` but contains a numeric-but-not-decimal character, the
unguarded `int(attrib)` raises `ValueError` out of `get_attributes` — so
the function is *not* raise-free.  A boolean arises exactly when the value
is the literal `true`/`false` and the key contains neither `-` nor `.`; a
float exactly when the value is not `isnumeric()`, the key contains `-` or
`.`, and the value parses as a float (Unicode decimal digits and
numeric-separator underscores included); in every remaining case —
including the caught float-attempt `ValueError` — the string is kept.
The coercion is applied to the namespace-stripped key. -/
theorem claim_C7_coercion (key v : String) :
    ((∃ b, coerceAttrVal key v = .ok (.bool b)) ↔
      ((v = "true" ∨ v = "false") ∧ containsDashOrDot key = false)) ∧
    ((∃ n, coerceAttrVal key v = .ok (.int n)) ↔
      (pyIsNumeric v = true ∧ pyIntAccepts v = true)) ∧
    (coerceAttrVal key v = .error .valueError ↔
      (pyIsNumeric v = true ∧ pyIntAccepts v = false)) ∧
    ((∃ lit, coerceAttrVal key v = .ok (.float lit)) ↔
      (pyIsNumeric v = false ∧ containsDashOrDot key = true ∧
        pyFloatParsable v = true)) ∧
    (coerceAttrVal key v = .ok (.str v) ↔
      (pyIsNumeric v = false ∧
        ((containsDashOrDot key = true ∧ pyFloatParsable v = false) ∨
         (containsDashOrDot key = false ∧ v ≠ "true" ∧ v ≠ "false")))) ∧
    getAttributes [(key, v)]
      = (coerceAttrVal (stripNs key) v).map
          (fun val => [(stripNs key, val)]) := by
  refine ⟨?_, ?_, ?_, ?_, ?_, ?_⟩
  · constructor
    · rintro ⟨b, hb⟩
      unfold coerceAttrVal at hb
      split_ifs at hb with h1 h2 h3 h4 h5 <;> simp_all
    · rintro ⟨hv, hd⟩
      rcases hv with rfl | rfl
      · refine ⟨true, ?_⟩
        have h1 : pyIsNumeric "true" = false := by decide
        simp [coerceAttrVal, hd, h1]
      · refine ⟨false, ?_⟩
        have h1 : pyIsNumeric "false" = false := by decide
        simp [coerceAttrVal, hd, h1]
  · unfold coerceAttrVal
    split_ifs <;> simp_all
  · unfold coerceAttrVal
    split_ifs <;> simp_all
  · unfold coerceAttrVal
    split_ifs <;> simp_all
  · unfold coerceAttrVal
    split_ifs <;> simp_all
  · have hfold : List.foldl
        (fun d kv => dictInsert d (stripNs kv.1) (PyVal.str kv.2))
        ([] : Attrs) [(key, v)] = [(stripNs key, .str v)] := by
      simp [dictInsert]
    show coerceAll _ = _
    rw [hfold]
    unfold coerceAll
    cases hc : coerceAttrVal (stripNs key) v with
    | error e => rfl
    | ok val => rfl

/-! ## XML elements (`xml.etree.ElementTree` as the parsers use it) -/

/-- An XML element: tag, raw attributes, children.  `find`/`findall` look
only at direct children, as `ElementTree` does. -/
inductive Elem : Type where
  | mk (tag : String) (attrib : List (String × String)) (children : List Elem)
  deriving Repr

/-- The element's tag. -/
def Elem.tag : Elem → String
  | .mk t _ _ => t

/-- The element's raw attribute list. -/
def Elem.attrib : Elem → List (String × String)
  | .mk _ a _ => a

/-- The element's direct children. -/
def Elem.children : Elem → List Elem
  | .mk _ _ c => c

/-- Python `tag.findall(name)`: direct children with the given tag. -/
def Elem.findall (e : Elem) (t : String) : List Elem :=
  e.children.filter (fun c => c.tag = t)

/-- Python `tag.find(name)`: first direct child with the given tag. -/
def Elem.find (e : Elem) (t : String) : Option Elem :=
  e.children.find? (fun c => c.tag = t)

/-- Python truthiness of an `ElementTree` element: an `Element` is falsy
when it has no children (`len(element) == 0`). -/
def Elem.truthy (e : Elem) : Bool :=
  !e.children.isEmpty

/-- `get_attributes` applied to an element. -/
def getAttributesE (e : Elem) : Except PyErr Attrs :=
  getAttributes e.attrib

/-! ## `Data` (`components/intent_filter.py`) -/

/-- The `_scheme` field of `Data`: `None`, a string, or — after
normalization with a mime type — the list `["content", "file"]`. -/
inductive SchemeV : Type where
  | none
  | str (s : String)
  | pair (ss : List String)
  deriving DecidableEq, Repr

/-- Python truthiness of a scheme value. -/
def SchemeV.truthy : SchemeV → Bool
  | .none => false
  | .str s => s ≠ ""
  | .pair ss => ss ≠ []

/-- How an f-string renders the scheme (`str(None)` is `"None"`, a list
renders as its `repr`). -/
def SchemeV.render : SchemeV → String
  | .none => "None"
  | .str s => s
  | .pair ss => pyListRepr ss

/-- Python truthiness of an optional string. -/
def optTruthy : Option String → Bool
  | some s => s ≠ ""
  | none => false

/-- `str(x)` of an optional string (`str(None)` is `"None"`). -/
def pyOptRender : Option String → String
  | some s => s
  | none => "None"

/-- One `<data>` declaration (`Data` dataclass): scheme, host, port, path,
path-pattern, path-prefix (field `pathPfx` models the source's
`_path_prefix`), mime-type.  String-valued fields are `Option String`. -/
structure DataD where
  scheme : SchemeV := .none
  host : Option String := none
  port : Option String := none
  path : Option String := none
  pathPattern : Option String := none
  pathPfx : Option String := none
  mimeType : Option String := none
  deriving DecidableEq, Repr

/-- `Data.__ignore_hosts`: a truthy host is replaced by `"*"`, a truthy
port is dropped. -/
def ignoreHosts (d : DataD) : DataD :=
  let d := if optTruthy d.host then { d with host := some "*" } else d
  if optTruthy d.port then { d with port := none } else d

/-- `Data.__ignore_paths`: truthy path/path-pattern/path-prefix dropped. -/
def ignorePaths (d : DataD) : DataD :=
  let d := if optTruthy d.path then { d with path := none } else d
  let d := if optTruthy d.pathPattern then { d with pathPattern := none } else d
  if optTruthy d.pathPfx then { d with pathPfx := none } else d

/-- First statement of `Data.__post_init__`: when the scheme is falsy it
becomes `"*"` (or `["content","file"]` when a mime type is present) and
hosts/paths are "ignored". -/
def schemeStep (d : DataD) : DataD :=
  if ¬ d.scheme.truthy then
    let d1 :=
      if optTruthy d.mimeType then { d with scheme := .pair ["content", "file"] }
      else { d with scheme := .str "*" }
    ignorePaths (ignoreHosts d1)
  else d

/-- Second statement of `Data.__post_init__`: when the (possibly already
rewritten) host is falsy, hosts/paths are "ignored" — which leaves the
falsy host itself untouched. -/
def hostStep (d : DataD) : DataD :=
  if ¬ optTruthy d.host then ignorePaths (ignoreHosts d) else d

/-- Third statement of `Data.__post_init__`: a truthy port is prefixed
with `":"`. -/
def portStep (d : DataD) : DataD :=
  if optTruthy d.port then { d with port := some (":" ++ d.port.getD "") } else d

/-- `Data.__post_init__` is the three statements in source order. -/
def dataPostInit (d : DataD) : DataD :=
  portStep (hostStep (schemeStep d))

/-- `Data.__get_paths`: `[path, path_pattern, f"{path_prefix}*"]` with falsy
entries dropped — note the f-string makes the third entry the truthy string
`"None*"` whenever no path-prefix was declared. -/
def dataGetPaths (d : DataD) : List String :=
  let possible : List (Option String) :=
    [d.path, d.pathPattern, some (pyOptRender d.pathPfx ++ "*")]
  (possible.filterMap id).filter (fun s => s ≠ "")

/-- Python `set.add` modelled on an insertion-ordered duplicate-free list. -/
def insertIfNew (l : List String) (s : String) : List String :=
  if s ∈ l then l else l ++ [s]

/-- `Data.get_uris`: per-scheme URI strings.  A `"*"` scheme yields the bare
scheme (plus mime suffix); a `"*"` host yields `scheme://`; otherwise the
f-string renders host, port and the `__get_paths()` *list* (Python renders
the list's `repr` inside the path segment). -/
def dataGetUris (d : DataD) : List String :=
  let schemes : List String :=
    match d.scheme with
    | .pair ss => ss
    | .str s => [s]
    | .none => ["None"]
  let mimeExt : String :=
    if optTruthy d.mimeType then " -t " ++ d.mimeType.getD "" else ""
  schemes.foldl (fun uris scheme =>
    if scheme = "*" then insertIfNew uris (scheme ++ mimeExt)
    else if d.host = some "*" then insertIfNew uris (scheme ++ "://" ++ mimeExt)
    else
      let portS := if optTruthy d.port then d.port.getD "" else ""
      let pl := dataGetPaths d
      let pathPart := if pl ≠ [] then pyListRepr pl else ""
      insertIfNew uris
        (scheme ++ "://" ++ pyOptRender d.host ++ portS ++ "/" ++ pathPart ++ mimeExt))
    []

/-- First character is `*` (Python `x[0] == "*"`). -/
def headIsStar (s : String) : Bool :=
  match s.data with
  | c :: _ => c = Char.ofNat 42
  | [] => false

/-- `IntentFilter.__create_uris` over the filter's (already normalized)
`Data` list: the union of every `Data`'s own URIs, plus the cross product
of all truthy (scheme, host, port, derived-uri-as-path) combinations, each
suffixed per declared mime type. -/
def createUris (data : List DataD) : List String :=
  let uris : List String :=
    data.foldl (fun acc d => (dataGetUris d).foldl insertIfNew acc) []
  let schemes : List SchemeV :=
    (data.filter (fun x => x.scheme.truthy)).map (fun x => x.scheme)
  let hosts : List String :=
    (data.filter (fun x => optTruthy x.host)).map (fun x => x.host.getD "")
  let ports : List String :=
    (data.filter (fun x => optTruthy x.port)).map (fun x => x.port.getD "")
  let mimeTypes : List String :=
    (data.filter (fun x => optTruthy x.mimeType)).map (fun x => x.mimeType.getD "")
  let paths : List String :=
    data.foldl (fun acc d =>
      (dataGetUris d).foldl (fun a p => if p ≠ "" then insertIfNew a p else a) acc) []
  let combos : List String :=
    schemes.flatMap (fun scheme =>
      hosts.flatMap (fun host =>
        ports.flatMap (fun port =>
          paths.map (fun path =>
            scheme.render ++ "://" ++ host ++ port ++ "/" ++ path))))
  combos.foldl (fun acc x =>
    if headIsStar x then
      (if mimeTypes ≠ [] then
        mimeTypes.foldl (fun a m => insertIfNew a (x ++ " -t " ++ m)) acc
      else insertIfNew acc x)
    else
      (if mimeTypes ≠ [] then
        mimeTypes.foldl (fun a m => insertIfNew a (x ++ " -t " ++ m)) acc
      else insertIfNew acc x))
    uris

/-! ## IntentFilter structures -/

/-- A `URI` object: a derived URI string plus its graph-node id (assigned
when the node is created). -/
structure URID where
  name : String
  id : Option Nat := none
  deriving DecidableEq, Repr

/-- An `Action` declaration (attribute map plus assigned node id). -/
structure ActionD where
  attributes : Attrs := []
  id : Option Nat := none
  deriving DecidableEq, Repr

/-- A `Category` declaration (attribute map plus assigned node id). -/
structure CategoryD where
  attributes : Attrs := []
  id : Option Nat := none
  deriving DecidableEq, Repr

/-- An `IntentFilter`: priority/order, action/category/data declarations
and the URI list derived at construction time. -/
structure IntentFilterD where
  parentType : String := ""
  priority : PyVal := .int 0
  order : PyVal := .int 0
  actions : List ActionD := []
  categories : List CategoryD := []
  data : List DataD := []
  uris : List URID := []
  id : Option Nat := none
  deriving DecidableEq, Repr

/-- `IntentFilter.__post_init__`: the stored `uris` list is
`__create_uris()` over the (already normalized) `data` list. -/
def mkIntentFilter (parentType : String) (priority order : PyVal)
    (actions : List ActionD) (categories : List CategoryD)
    (data : List DataD) : IntentFilterD :=
  { parentType := parentType, priority := priority, order := order,
    actions := actions, categories := categories, data := data,
    uris := (createUris data).map (fun n => URID.mk n none) }

/-! ## Set-semantics lemmas for the derived URI lists -/

/-- `insertIfNew` preserves duplicate-freedom. -/
theorem insertIfNew_nodup (l : List String) (s : String) (h : l.Nodup) :
    (insertIfNew l s).Nodup := by
  unfold insertIfNew
  split
  · exact h
  · simp_all [List.nodup_append]

/-- Folding any nodup-preserving step preserves duplicate-freedom. -/
theorem foldl_nodup_preserve {α : Type} (f : List String → α → List String)
    (hf : ∀ l a, l.Nodup → (f l a).Nodup) (xs : List α) (l : List String)
    (hl : l.Nodup) : (xs.foldl f l).Nodup := by
  induction xs generalizing l with
  | nil => exact hl
  | cons x xs ih => exact ih (f l x) (hf l x hl)

/-- The URI list `__create_uris` derives is duplicate-free: it models a
Python `set` of URI strings. -/
theorem createUris_nodup (data : List DataD) : (createUris data).Nodup := by
  unfold createUris
  apply foldl_nodup_preserve
  · intro l a hl
    split
    · split
      · exact foldl_nodup_preserve _ (fun l m hm => insertIfNew_nodup _ _ hm) _ _ hl
      · exact insertIfNew_nodup _ _ hl
    · split
      · exact foldl_nodup_preserve _ (fun l m hm => insertIfNew_nodup _ _ hm) _ _ hl
      · exact insertIfNew_nodup _ _ hl
  · apply foldl_nodup_preserve
    · intro l a hl
      exact foldl_nodup_preserve _ (fun l p hp => insertIfNew_nodup _ _ hp) _ _ hl
    · exact List.nodup_nil

/-- C6 counterexample: the claim has the host normalization backwards.
With no scheme and no mime type, a declared host is not cleared — it is
set to the wildcard `"*"`; and with a scheme but no host, the host does
not become `"*"` — it stays absent (`None`), which later renders as the
literal `"None"` inside derived URIs. -/
theorem claim_C6_counterexample :
    (dataPostInit { host := some "example.com", path := some "/p" }).host
      = some "*" ∧
    (dataPostInit
      { scheme := SchemeV.str "http", host := none, path := some "/p" }).host
      = none := by
  exact ⟨rfl, rfl⟩

/-- Truthiness computations used to reduce the normalization steps. -/
theorem optTruthy_none_eq : optTruthy none = false := rfl

/-- The wildcard host is truthy. -/
theorem optTruthy_star : optTruthy (some "*") = true := rfl

/-- `__ignore_hosts` leaves every field except host and port unchanged. -/
theorem ignoreHosts_fields (d : DataD) :
    (ignoreHosts d).scheme = d.scheme ∧ (ignoreHosts d).path = d.path ∧
    (ignoreHosts d).pathPattern = d.pathPattern ∧
    (ignoreHosts d).pathPfx = d.pathPfx ∧
    (ignoreHosts d).mimeType = d.mimeType := by
  unfold ignoreHosts
  by_cases h1 : optTruthy d.host <;> by_cases h2 : optTruthy d.port <;> simp [h1, h2]

/-- `__ignore_hosts` wildcards a truthy host, keeps a falsy one, and
preserves host truthiness either way. -/
theorem ignoreHosts_host (d : DataD) :
    (optTruthy d.host = true → (ignoreHosts d).host = some "*") ∧
    (optTruthy d.host = false → (ignoreHosts d).host = d.host) ∧
    optTruthy (ignoreHosts d).host = optTruthy d.host := by
  unfold ignoreHosts
  by_cases h1 : optTruthy d.host <;> by_cases h2 : optTruthy d.port <;>
    simp_all [optTruthy_star]

/-- `__ignore_paths` clears every truthy path component and touches
nothing else. -/
theorem ignorePaths_fields (d : DataD) :
    optTruthy (ignorePaths d).path = false ∧
    optTruthy (ignorePaths d).pathPattern = false ∧
    optTruthy (ignorePaths d).pathPfx = false ∧
    (ignorePaths d).scheme = d.scheme ∧ (ignorePaths d).host = d.host ∧
    (ignorePaths d).port = d.port ∧ (ignorePaths d).mimeType = d.mimeType := by
  unfold ignorePaths
  by_cases h1 : optTruthy d.path <;> by_cases h2 : optTruthy d.pathPattern <;>
    by_cases h3 : optTruthy d.pathPfx <;> simp_all [optTruthy_none_eq]

/-- Field behavior of the first `__post_init__` statement. -/
theorem schemeStep_fields (d : DataD) :
    (d.scheme.truthy = false → optTruthy d.mimeType = false →
      (schemeStep d).scheme = SchemeV.str "*") ∧
    (d.scheme.truthy = false → optTruthy d.mimeType = true →
      (schemeStep d).scheme = SchemeV.pair ["content", "file"]) ∧
    (d.scheme.truthy = false →
      optTruthy (schemeStep d).path = false ∧
      optTruthy (schemeStep d).pathPattern = false ∧
      optTruthy (schemeStep d).pathPfx = false) ∧
    (d.scheme.truthy = false → optTruthy d.host = true →
      (schemeStep d).host = some "*") ∧
    (optTruthy d.host = false → (schemeStep d).host = d.host) ∧
    optTruthy (schemeStep d).host = optTruthy d.host := by
  unfold schemeStep
  split_ifs with h1 h2 <;>
    simp_all [ignorePaths_fields, ignoreHosts_fields, ignoreHosts_host]

/-- Field behavior of the second `__post_init__` statement. -/
theorem hostStep_fields (d : DataD) :
    (hostStep d).host = d.host ∧
    (hostStep d).scheme = d.scheme ∧
    (hostStep d).mimeType = d.mimeType ∧
    (optTruthy d.host = false →
      optTruthy (hostStep d).path = false ∧
      optTruthy (hostStep d).pathPattern = false ∧
      optTruthy (hostStep d).pathPfx = false) ∧
    (optTruthy (hostStep d).path = false ∨ optTruthy d.path = true) ∧
    (optTruthy (hostStep d).pathPattern = false ∨ optTruthy d.pathPattern = true) ∧
    (optTruthy (hostStep d).pathPfx = false ∨ optTruthy d.pathPfx = true) := by
  unfold hostStep
  split_ifs with h1 <;>
    simp_all [ignorePaths_fields, ignoreHosts_fields, ignoreHosts_host]

/-- The third `__post_init__` statement touches only the port. -/
theorem portStep_fields (d : DataD) :
    (portStep d).host = d.host ∧ (portStep d).scheme = d.scheme ∧
    (portStep d).path = d.path ∧ (portStep d).pathPattern = d.pathPattern ∧
    (portStep d).pathPfx = d.pathPfx ∧ (portStep d).mimeType = d.mimeType := by
  unfold portStep
  by_cases h1 : optTruthy d.port <;> simp [h1]

/-- C6 (amended): `Data.__post_init__` normalization.  If the scheme is
absent and no mime type is declared the scheme becomes `"*"`; with a mime
type it becomes the pair `["content","file"]`.  In both cases — mime type
or not — a declared host is replaced by the wildcard `"*"` (not cleared),
an absent host stays as it was, and all truthy path components are
discarded.  If the host is absent, the host stays absent (it does not
become `"*"`) and all truthy path components are discarded. -/
theorem claim_C6_data_normalization (d : DataD) :
    (d.scheme.truthy = false ∧ optTruthy d.mimeType = false →
      (dataPostInit d).scheme = SchemeV.str "*") ∧
    (d.scheme.truthy = false ∧ optTruthy d.mimeType = true →
      (dataPostInit d).scheme = SchemeV.pair ["content", "file"]) ∧
    (d.scheme.truthy = false →
      (optTruthy d.host = true → (dataPostInit d).host = some "*") ∧
      (optTruthy d.host = false → (dataPostInit d).host = d.host) ∧
      optTruthy (dataPostInit d).path = false ∧
      optTruthy (dataPostInit d).pathPattern = false ∧
      optTruthy (dataPostInit d).pathPfx = false) ∧
    (optTruthy d.host = false →
      (dataPostInit d).host = d.host ∧
      optTruthy (dataPostInit d).path = false ∧
      optTruthy (dataPostInit d).pathPattern = false ∧
      optTruthy (dataPostInit d).pathPfx = false) := by
  have hS := schemeStep_fields d
  have hH := hostStep_fields (schemeStep d)
  have hP := portStep_fields (hostStep (schemeStep d))
  unfold dataPostInit
  refine ⟨?_, ?_, ?_, ?_⟩
  · rintro ⟨hs, hm⟩
    rw [hP.2.1, hH.2.1, hS.1 hs hm]
  · rintro ⟨hs, hm⟩
    rw [hP.2.1, hH.2.1, hS.2.1 hs hm]
  · intro hs
    refine ⟨?_, ?_, ?_, ?_, ?_⟩
    · intro hh
      rw [hP.1, hH.1, hS.2.2.2.1 hs hh]
    · intro hh
      rw [hP.1, hH.1, hS.2.2.2.2.1 hh]
    · rcases hH.2.2.2.2.1 with h | h
      · rw [hP.2.2.1]; exact h
      · exact absurd ((hS.2.2.1 hs).1) (by simp [h])
    · rcases hH.2.2.2.2.2.1 with h | h
      · rw [hP.2.2.2.1]; exact h
      · exact absurd ((hS.2.2.1 hs).2.1) (by simp [h])
    · rcases hH.2.2.2.2.2.2 with h | h
      · rw [hP.2.2.2.2.1]; exact h
      · exact absurd ((hS.2.2.1 hs).2.2) (by simp [h])
  · intro hh
    have hh2 : optTruthy (schemeStep d).host = false := by
      rw [hS.2.2.2.2.2]; exact hh
    refine ⟨?_, ?_, ?_, ?_⟩
    · rw [hP.1, hH.1, hS.2.2.2.2.1 hh]
    · rw [hP.2.2.1]; exact (hH.2.2.2.1 hh2).1
    · rw [hP.2.2.2.1]; exact (hH.2.2.2.1 hh2).2.1
    · rw [hP.2.2.2.2.1]; exact (hH.2.2.2.1 hh2).2.2

/-- The witness `Data` without a mime type: host and path, no scheme. -/
def c6dNoMime : DataD := { host := some "h", path := some "/p" }

/-- The witness `Data` with a mime type: host and path, no scheme. -/
def c6dMime : DataD :=
  { host := some "h", path := some "/p", mimeType := some "text/plain" }

/-- Witness for `claim_C6_data_normalization` at two concrete `Data`
declarations with a host and a path and no scheme: one without a mime
type (scheme becomes `"*"`) and one with a mime type (scheme becomes the
`["content","file"]` pair) — the host is wildcarded and the path
discarded in both. -/
theorem claim_C6_witness :
    (dataPostInit c6dNoMime).scheme = SchemeV.str "*" ∧
    (dataPostInit c6dNoMime).host = some "*" ∧
    optTruthy (dataPostInit c6dNoMime).path = false ∧
    (dataPostInit c6dMime).scheme = SchemeV.pair ["content", "file"] ∧
    (dataPostInit c6dMime).host = some "*" ∧
    optTruthy (dataPostInit c6dMime).path = false := by
  have h1 := claim_C6_data_normalization c6dNoMime
  have h2 := claim_C6_data_normalization c6dMime
  exact ⟨h1.1 ⟨rfl, rfl⟩, (h1.2.2.1 rfl).1 rfl, (h1.2.2.1 rfl).2.2.1,
    h2.2.1 ⟨rfl, rfl⟩, (h2.2.2.1 rfl).1 rfl, (h2.2.2.1 rfl).2.2.1⟩

/-- C10: URI derivation is a pure function of the filter's `Data` list —
the embedding of `__create_uris` reads nothing else — so deriving twice
from one filter, or once from each of two filters with identical `Data`
declarations, yields the same duplicate-free list, and in particular the
same set of URI strings. -/
theorem claim_C10_uri_derivation (f g : IntentFilterD)
    (hf : f.uris = (createUris f.data).map (fun n => URID.mk n none))
    (hg : g.uris = (createUris g.data).map (fun n => URID.mk n none))
    (hdata : f.data = g.data) :
    (createUris f.data).Nodup ∧
    f.uris = g.uris ∧
    (f.uris.map URID.name).toFinset = (g.uris.map URID.name).toFinset := by
  refine ⟨createUris_nodup f.data, ?_, ?_⟩
  · rw [hf, hg, hdata]
  · rw [hf, hg, hdata]

/-- Witness for `claim_C10_uri_derivation`: two structurally different
filters (different actions) sharing one `Data` declaration derive the same
URI set. -/
theorem claim_C10_witness :
    (createUris (mkIntentFilter "activity" (.int 0) (.int 0) []
      [] [dataPostInit { scheme := SchemeV.str "http", host := some "h" }]).data).Nodup ∧
    (mkIntentFilter "activity" (.int 0) (.int 0) [] []
      [dataPostInit { scheme := SchemeV.str "http", host := some "h" }]).uris
    = (mkIntentFilter "service" (.int 0) (.int 0) [ActionD.mk [] none] []
      [dataPostInit { scheme := SchemeV.str "http", host := some "h" }]).uris := by
  have h := claim_C10_uri_derivation
    (mkIntentFilter "activity" (.int 0) (.int 0) [] []
      [dataPostInit { scheme := SchemeV.str "http", host := some "h" }])
    (mkIntentFilter "service" (.int 0) (.int 0) [ActionD.mk [] none] []
      [dataPostInit { scheme := SchemeV.str "http", host := some "h" }])
    rfl rfl rfl
  exact ⟨h.1, h.2.1⟩

/-! ## Filesystem (`components/filesystem.py`) -/

/-- The `Volume` enum. -/
inductive Volume : Type where
  | internal
  | external
  | scopedStorage
  deriving DecidableEq, Repr

/-- The `DataType` enum (`"AppSpecific"` / `""`). -/
inductive DataType : Type where
  | appSpecific
  | normal
  deriving DecidableEq, Repr

/-- A `Directory`: name, data type, volume, and the `_parent` back link.
In the dataclass `_parent` is `init=False` with default `None`; only the
constructor arguments of `Directory(...)` can set the other fields. -/
inductive DirectoryD : Type where
  | mk (name : String) (dataType : DataType) (volume : Volume)
      (parent : Option DirectoryD)
  deriving Repr

/-- The directory's name. -/
def DirectoryD.name : DirectoryD → String
  | .mk n _ _ _ => n

/-- The directory's volume. -/
def DirectoryD.volume : DirectoryD → Volume
  | .mk _ _ v _ => v

/-- The directory's parent link. -/
def DirectoryD.parent : DirectoryD → Option DirectoryD
  | .mk _ _ _ p => p

/-- `Directory.create_sub_dir`: builds
`Directory(_name=name, _data_type=dir_type, _volume=self.volume)` and
stores it in `self.sub_dirs` — the child's `_parent` field is never
assigned, so it keeps its dataclass default `None`. -/
def createSubDir (d : DirectoryD) (name : String) (dirType : DataType) :
    DirectoryD :=
  .mk name dirType d.volume none

/-- The name components `_path` collects: the entity's own name, then the
names up the `parent` chain. -/
def pathComponents : DirectoryD → List String
  | .mk n _ _ par =>
    n :: (match par with
          | some p => pathComponents p
          | none => [])

/-- `_path(data)` (`components/filesystem.py`): walk the parent links
collecting names, append `""` for the internal volume or `"sdcard"`
otherwise, blank out the *first* component when it is `"/"`, and join the
reversed list with `/`. -/
def pyPath (d : DirectoryD) : String :=
  let comps := pathComponents d ++
    [if d.volume = Volume.internal then "" else "sdcard"]
  let comps :=
    match comps with
    | c0 :: rest => (if c0 = "/" then "" else c0) :: rest
    | [] => []
  String.intercalate "/" comps.reverse

/-- The internal volume root, `create_volume(name="/", volume=INTERNAL)`
in `FileSystem.__post_init__`. -/
def internalRootDir : DirectoryD := .mk "/" .normal .internal none

/-- The external volume root, `create_volume(name="sdcard", ...)`. -/
def externalRootDir : DirectoryD := .mk "sdcard" .normal .external none

/-- C3: claimed path construction fails because `create_sub_dir` never
assigns the child's `_parent` link; `_path` finds no ancestors, so a
directory three levels below the internal root renders as `/cache` instead
of `/data/app/cache`, and its external counterpart as `sdcard/cache`
instead of `sdcard/Android/data/app/cache`.  (Even a hand-linked parent
chain would render as `///data/app/cache`, because the root name `"/"` is
only blanked when it is the *first* collected component, i.e. for the root
itself.)  Every app's `cache` directory therefore collides on the same
path key. -/
theorem claim_C3_directory_paths :
    pyPath (createSubDir (createSubDir (createSubDir internalRootDir
        "data" .normal) "app" .appSpecific) "cache" .appSpecific)
      = "/cache" ∧
    pyPath (createSubDir (createSubDir (createSubDir (createSubDir
        externalRootDir "Android" .normal) "data" .normal)
        "app" .appSpecific) "cache" .appSpecific)
      = "sdcard/cache" ∧
    pyPath (DirectoryD.mk "cache" .appSpecific .internal
        (some (.mk "app" .appSpecific .internal
          (some (.mk "data" .normal .internal (some internalRootDir))))))
      = "///data/app/cache" := by
  refine ⟨rfl, rfl, rfl⟩

/-! ## The graph sink (`securicad.model`, modelled from the spec) -/

/-- A created graph node: its assigned id, asset type and name. -/
structure SObj where
  id : Nat
  assetType : String
  name : String
  deriving DecidableEq, Repr

/-- A typed edge, identified by end-node ids and the two field names. -/
structure Edge where
  sId : Nat
  tId : Nat
  sField : String
  tField : String
  deriving DecidableEq, Repr

/-- Modelled from the spec: the collaborator sink's capabilities — an
asset-type catalog membership test (`is_known`) and an
association-compatibility test between two asset types and field names.
The `securicad` package is an external dependency, not part of this
repository. -/
structure Sink where
  isKnownAsset : String → Bool
  compatible : String → String → String → String → Bool

/-- Modelled from the spec: the collaborator's model state — monotonically
assigned node ids, created nodes, created edges. -/
structure SModel where
  nextId : Nat := 0
  objects : List SObj := []
  edges : List Edge := []

/-- Modelled from the spec: `model.create_object(asset_type, name)` — a
fresh node id on success, `InvalidAssetException` when the asset type is
unknown to the active catalog. -/
def modelCreateObject (sink : Sink) (m : SModel) (assetType name : String) :
    Except PyErr (SModel × SObj) :=
  if sink.isKnownAsset assetType then
    let obj : SObj := ⟨m.nextId, assetType, name⟩
    .ok ({ m with nextId := m.nextId + 1, objects := m.objects ++ [obj] }, obj)
  else .error .invalidAsset

/-- Modelled from the spec: `s.field(f).connect(t.field(g))` —
`DuplicateAssociationException` on a repeated edge,
`InvalidAssetException` on an incompatible one, otherwise the edge is
recorded. -/
def modelConnect (sink : Sink) (m : SModel) (s : SObj) (sField : String)
    (t : SObj) (tField : String) : Except PyErr SModel :=
  let e : Edge := ⟨s.id, t.id, sField, tField⟩
  if e ∈ m.edges then .error .duplicateAssociation
  else if sink.compatible s.assetType sField t.assetType tField then
    .ok { m with edges := m.edges ++ [e] }
  else .error .invalidAsset

/-- `AndroidParser.create_associaton` (`main.py`).  The None guard is
`if not any([s_obj, t_obj])`, which fires only when *both* arguments are
falsy; identical arguments return early; the isinstance check only logs;
then `s_obj.field(s_field).connect(t_obj.field(t_field))` runs with
`DuplicateAssociationException` passed over and `InvalidAssetException`
logged — but a `None` argument reaching the call raises `AttributeError`
(`None` has no `field` method). -/
def createAssociaton (sink : Sink) (m : SModel) (sObj tObj : Option SObj)
    (sField tField : String) : Except PyErr SModel :=
  if sObj = none ∧ tObj = none then .ok m
  else if sObj = tObj then .ok m
  else
    match sObj, tObj with
    | none, _ => .error .attributeError
    | some _, none => .error .attributeError
    | some s, some t =>
      match modelConnect sink m s sField t tField with
      | .ok m2 => .ok m2
      | .error .duplicateAssociation => .ok m
      | .error .invalidAsset => .ok m
      | .error e => .error e

/-- A sink that accepts every asset type and association, for concrete
evaluations. -/
def sinkAny : Sink := ⟨fun _ => true, fun _ _ _ _ => true⟩

/-- C4: the claim says `create_association` is a no-op whenever *either*
argument is null.  The code's guard `not any([s_obj, t_obj])` fires only
when both are null (its own log message says "one or more None objects"),
so a single null argument falls through to `.field(...)` and raises
`AttributeError`.  Both-null and identical arguments are no-ops as
claimed. -/
theorem claim_C4_null_arguments :
    createAssociaton sinkAny {} (some ⟨0, "Activity", "A"⟩) none "f" "g"
      = .error .attributeError ∧
    createAssociaton sinkAny {} none (some ⟨1, "IntentFilter", "IF"⟩) "f" "g"
      = .error .attributeError ∧
    createAssociaton sinkAny {} none none "f" "g" = .ok {} ∧
    createAssociaton sinkAny {}
      (some ⟨0, "Activity", "A"⟩) (some ⟨0, "Activity", "A"⟩) "f" "g"
      = .ok {} := by
  refine ⟨rfl, rfl, rfl, rfl⟩

/-- C8: calling `create_associaton` twice with the same
(source, target, source-field, target-field) tuple records exactly one
edge and raises nothing: the second call's
`DuplicateAssociationException` is caught and passed over. -/
theorem claim_C8_idempotent_edges (sink : Sink) (m : SModel) (s t : SObj)
    (sField tField : String) (hne : s ≠ t)
    (hcompat : sink.compatible s.assetType sField t.assetType tField = true)
    (hnew : Edge.mk s.id t.id sField tField ∉ m.edges) :
    ∃ m1, createAssociaton sink m (some s) (some t) sField tField = .ok m1 ∧
      createAssociaton sink m1 (some s) (some t) sField tField = .ok m1 ∧
      m1.edges.count (Edge.mk s.id t.id sField tField) = 1 := by
  refine ⟨{ m with edges := m.edges ++ [⟨s.id, t.id, sField, tField⟩] }, ?_, ?_, ?_⟩
  · unfold createAssociaton modelConnect
    simp [hne, hcompat, hnew]
  · unfold createAssociaton modelConnect
    simp [hne]
  · simp [List.count_append]
    exact List.count_eq_zero.mpr hnew

/-- Witness for `claim_C8_idempotent_edges` on two concrete nodes and an
empty model. -/
theorem claim_C8_witness :
    ∃ m1, createAssociaton sinkAny {} (some ⟨0, "Activity", "A"⟩)
        (some ⟨1, "IntentFilter", "IntentFilter"⟩) "intentFilters" "component"
        = .ok m1 ∧
      createAssociaton sinkAny m1 (some ⟨0, "Activity", "A"⟩)
        (some ⟨1, "IntentFilter", "IntentFilter"⟩) "intentFilters" "component"
        = .ok m1 ∧
      m1.edges.count (Edge.mk 0 1 "intentFilters" "component") = 1 := by
  exact claim_C8_idempotent_edges sinkAny {} ⟨0, "Activity", "A"⟩
    ⟨1, "IntentFilter", "IntentFilter"⟩ "intentFilters" "component"
    (by decide) rfl (by simp [SModel.edges])

/-! ## The create pass for intent filters (`IntentFilter.create_scad_objects`) -/

/-- Ordered-dict lookup by key (first match). -/
def lookupKey {κ α : Type} [DecidableEq κ] (d : List (κ × α)) (k : κ) :
    Option α :=
  (d.find? (fun p => p.1 = k)).map Prod.snd

/-- Python `str.endswith`, kernel-reducible. -/
def strEndsWith (s t : String) : Bool :=
  List.isPrefixOf t.data.reverse s.data.reverse

/-- `name.split(".")[-1]` in `AndroidParser.create_object`: the trailing
simple name of a Java-style dotted name. -/
def lastDotSegment (s : String) : String :=
  String.mk ((splitOnCharL (Char.ofNat 46) s.data).getLastD [])

/-- `AndroidParser.create_object`'s try block: on success the node is
recorded and the fresh id returned; `InvalidAssetException` is caught,
logged, and `None` is returned. -/
def parserCreateObject (sink : Sink) (m : SModel) (assetType name : String) :
    SModel × Option Nat :=
  match modelCreateObject sink m assetType name with
  | .ok (m2, obj) => (m2, some obj.id)
  | .error _ => (m, none)

/-- `Category.name`: the `name` attribute (`None` when absent). -/
def catKey (c : CategoryD) : Option PyVal := c.attributes.get "name"

/-- `Action.name`. -/
def actKey (a : ActionD) : Option PyVal := a.attributes.get "name"

/-- `Category.asset_type`: `…category.BROWSABLE` maps to `CategoryDefault`
and `…category.DEFAULT` to `CategoryBrowsable` (the two names are swapped
in the source exactly like this); anything else is `Category`.  A missing
or non-string name raises `AttributeError` (`None.endswith`). -/
def categoryAssetType (c : CategoryD) : Except PyErr String :=
  match catKey c with
  | some (.str n) =>
    .ok (if strEndsWith n "category.BROWSABLE" then "CategoryDefault"
        else if strEndsWith n "category.DEFAULT" then "CategoryBrowsable"
        else "Category")
  | _ => .error .attributeError

/-- `Action.asset_type`: `…action.VIEW` maps to `ACTION_VIEW`, anything
else to `Action`; a missing or non-string name raises `AttributeError`. -/
def actionAssetType (a : ActionD) : Except PyErr String :=
  match actKey a with
  | some (.str n) =>
    .ok (if strEndsWith n "action.VIEW" then "ACTION_VIEW" else "Action")
  | _ => .error .attributeError

/-- `Category.create_scad_objects` followed by the id assignment of
`create_object(python_obj=category)`. -/
def createCategoryObj (sink : Sink) (m : SModel) (c : CategoryD) :
    Except PyErr (SModel × CategoryD × Option Nat) := do
  let assetType ← categoryAssetType c
  let nodeName :=
    match catKey c with
    | some (.str n) => lastDotSegment n
    | _ => ""
  let (m2, idOpt) := parserCreateObject sink m assetType nodeName
  .ok (m2, { c with id := idOpt }, idOpt)

/-- `Action.create_scad_objects` followed by the id assignment. -/
def createActionObj (sink : Sink) (m : SModel) (a : ActionD) :
    Except PyErr (SModel × ActionD × Option Nat) := do
  let assetType ← actionAssetType a
  let nodeName :=
    match actKey a with
    | some (.str n) => lastDotSegment n
    | _ => ""
  let (m2, idOpt) := parserCreateObject sink m assetType nodeName
  .ok (m2, { a with id := idOpt }, idOpt)

/-- `URI.create_scad_objects` (asset type `Data`) followed by the id
assignment. -/
def createUriObj (sink : Sink) (m : SModel) (u : URID) :
    Except PyErr (SModel × URID × Option Nat) :=
  let (m2, idOpt) := parserCreateObject sink m "Data" (lastDotSegment u.name)
  .ok (m2, { u with id := idOpt }, idOpt)

/-- One iteration of the dedup loops in `IntentFilter.create_scad_objects`:
a dict hit replaces the filter's entry with the stored object; a miss
creates the node, stores the object under its name, and (when a node was
actually created) logs the creation for bookkeeping. -/
def dedupStep {κ α : Type} [DecidableEq κ] (key : α → κ)
    (create : SModel → α → Except PyErr (SModel × α × Option Nat))
    (m : SModel) (dict : List (κ × α)) (created : List κ) (x : α) :
    Except PyErr (SModel × List (κ × α) × List κ × α) :=
  match lookupKey dict (key x) with
  | some stored => .ok (m, dict, created, stored)
  | none => do
    let (m2, x2, idOpt) ← create m x
    .ok (m2, dict ++ [(key x, x2)],
      created ++ (match idOpt with | some _ => [key x] | none => []), x2)

/-- The dedup loop over one declaration list. -/
def dedupFold {κ α : Type} [DecidableEq κ] (key : α → κ)
    (create : SModel → α → Except PyErr (SModel × α × Option Nat)) :
    List α → SModel → List (κ × α) → List κ →
    Except PyErr (SModel × List (κ × α) × List κ × List α)
  | [], m, dict, created => .ok (m, dict, created, [])
  | x :: xs, m, dict, created => do
    let (m2, dict2, created2, x2) ← dedupStep key create m dict created x
    let (m3, dict3, created3, xs2) ← dedupFold key create xs m2 dict2 created2
    .ok (m3, dict3, created3, x2 :: xs2)

/-- The per-application create-pass state: the sink model, the three dedup
dicts of `Application` (`actions`, `categories`, `uris`), and — as proof
bookkeeping, not source state — the keys for which a graph node was
actually created. -/
structure AppSt where
  model : SModel
  catDict : List (Option PyVal × CategoryD) := []
  actDict : List (Option PyVal × ActionD) := []
  uriDict : List (String × URID) := []
  createdCats : List (Option PyVal) := []
  createdActs : List (Option PyVal) := []
  createdUris : List String := []

/-- `IntentFilter.create_scad_objects`: create the filter's own node
(asset type and node name `IntentFilter`), then run the category, action
and URI dedup loops against the application's dicts. -/
def intentFilterCreateScad (sink : Sink) (st : AppSt) (f : IntentFilterD) :
    Except PyErr (AppSt × IntentFilterD) := do
  let (m1, fid) := parserCreateObject sink st.model "IntentFilter" "IntentFilter"
  let (m2, catDict2, createdCats2, cats2) ←
    dedupFold catKey (createCategoryObj sink) f.categories m1 st.catDict
      st.createdCats
  let (m3, actDict2, createdActs2, acts2) ←
    dedupFold actKey (createActionObj sink) f.actions m2 st.actDict
      st.createdActs
  let (m4, uriDict2, createdUris2, uris2) ←
    dedupFold URID.name (createUriObj sink) f.uris m3 st.uriDict
      st.createdUris
  let st2 : AppSt :=
    { model := m4
      catDict := catDict2
      actDict := actDict2
      uriDict := uriDict2
      createdCats := createdCats2
      createdActs := createdActs2
      createdUris := createdUris2 }
  let f2 : IntentFilterD :=
    { f with
      id := fid
      categories := cats2
      actions := acts2
      uris := uris2 }
  .ok (st2, f2)

/-- The create pass over all intent filters of an application's
components, in declaration order (each component's
`create_scad_objects` runs its filters against the same shared dicts). -/
def runFilters (sink : Sink) :
    List IntentFilterD → AppSt → Except PyErr (AppSt × List IntentFilterD)
  | [], st => .ok (st, [])
  | f :: fs, st => do
    let (st2, f2) ← intentFilterCreateScad sink st f
    let (st3, fs2) ← runFilters sink fs st2
    .ok (st3, f2 :: fs2)

/-! ## Dedup invariants (C9) -/

/-- Every lookup that succeeds keeps succeeding with the same value. -/
def MapExtends {κ α : Type} [DecidableEq κ] (d1 d2 : List (κ × α)) : Prop :=
  ∀ k v, lookupKey d1 k = some v → lookupKey d2 k = some v

/-- The dedup invariant: node creations are pairwise distinct keys, every
created key is stored in the dict, and every stored object carries the key
it is stored under. -/
def DedupInv {κ α : Type} [DecidableEq κ] (key : α → κ)
    (dict : List (κ × α)) (created : List κ) : Prop :=
  created.Nodup ∧ (∀ k ∈ created, (lookupKey dict k).isSome) ∧
    (∀ p ∈ dict, key p.2 = p.1)

theorem mapExtends_refl {κ α : Type} [DecidableEq κ] (d : List (κ × α)) :
    MapExtends d d :=
  fun _ _ h => h

theorem mapExtends_trans {κ α : Type} [DecidableEq κ]
    {d1 d2 d3 : List (κ × α)} (h1 : MapExtends d1 d2)
    (h2 : MapExtends d2 d3) : MapExtends d1 d3 :=
  fun k v h => h2 k v (h1 k v h)

theorem lookupKey_append {κ α : Type} [DecidableEq κ]
    (d1 d2 : List (κ × α)) (k : κ) :
    lookupKey (d1 ++ d2) k = (lookupKey d1 k).or (lookupKey d2 k) := by
  unfold lookupKey
  rw [List.find?_append]
  cases h : List.find? (fun p => p.1 = k) d1 <;> simp [h, Option.or]

theorem lookupKey_mono {κ α : Type} [DecidableEq κ]
    {d1 : List (κ × α)} {k : κ} {v : α} (d2 : List (κ × α))
    (h : lookupKey d1 k = some v) : lookupKey (d1 ++ d2) k = some v := by
  rw [lookupKey_append, h]
  rfl

theorem lookupKey_none_append {κ α : Type} [DecidableEq κ]
    {d1 : List (κ × α)} {k : κ} (d2 : List (κ × α))
    (h : lookupKey d1 k = none) : lookupKey (d1 ++ d2) k = lookupKey d2 k := by
  rw [lookupKey_append, h]
  rfl

theorem lookupKey_single {κ α : Type} [DecidableEq κ] (k0 k : κ) (v0 : α) :
    lookupKey [(k0, v0)] k = if k0 = k then some v0 else none := by
  unfold lookupKey
  by_cases h : k0 = k <;> simp [List.find?, h]

/-- A successful lookup returns an object stored under the looked-up key. -/
theorem lookupKey_key {κ α : Type} [DecidableEq κ] {key : α → κ}
    {dict : List (κ × α)} {k : κ} {v : α}
    (hcons : ∀ p ∈ dict, key p.2 = p.1) (h : lookupKey dict k = some v) :
    key v = k := by
  unfold lookupKey at h
  cases hf : List.find? (fun p => p.1 = k) dict with
  | none => rw [hf] at h; exact absurd h (by simp)
  | some pr =>
    rw [hf] at h
    have hm := List.mem_of_find?_eq_some hf
    have hp := List.find?_some hf
    have := hcons pr hm
    simp at h hp
    rw [← h]
    rw [this, hp]

/-- `Except` bind on a success reduces to the continuation. -/
theorem exceptBind_ok {ε α β : Type} (a : α) (f : α → Except ε β) :
    (Except.ok a >>= f) = f a := rfl

/-- `Except` bind on an error propagates the error. -/
theorem exceptBind_error {ε α β : Type} (e : ε) (f : α → Except ε β) :
    (Except.error e >>= f : Except ε β) = Except.error e := rfl

/-- One dedup-loop iteration preserves the invariant, only extends the
dict, and leaves the processed item stored under its own key. -/
theorem dedupStep_spec {κ α : Type} [DecidableEq κ] (key : α → κ)
    (create : SModel → α → Except PyErr (SModel × α × Option Nat))
    (hkey : ∀ m x m2 x2 i, create m x = .ok (m2, x2, i) → key x2 = key x)
    (m : SModel) (dict : List (κ × α)) (created : List κ) (x : α)
    (m2 : SModel) (dict2 : List (κ × α)) (created2 : List κ) (x2 : α)
    (hinv : DedupInv key dict created)
    (h : dedupStep key create m dict created x = .ok (m2, dict2, created2, x2)) :
    DedupInv key dict2 created2 ∧ MapExtends dict dict2 ∧
      lookupKey dict2 (key x2) = some x2 := by
  unfold dedupStep at h
  cases hl : lookupKey dict (key x) with
  | some stored =>
    rw [hl] at h
    simp only [Except.ok.injEq, Prod.mk.injEq] at h
    obtain ⟨hm, hd, hcr, hx⟩ := h
    rw [← hd, ← hcr, ← hx]
    refine ⟨hinv, mapExtends_refl _, ?_⟩
    rw [lookupKey_key hinv.2.2 hl]
    exact hl
  | none =>
    rw [hl] at h
    cases hc : create m x with
    | error e =>
      rw [hc, exceptBind_error] at h
      exact absurd h (by simp)
    | ok trip =>
      obtain ⟨ma, xa, idOpt⟩ := trip
      rw [hc, exceptBind_ok] at h
      simp only [Except.ok.injEq, Prod.mk.injEq] at h
      obtain ⟨hm, hd, hcr, hx⟩ := h
      rw [← hd, ← hcr, ← hx]
      have hk := hkey _ _ _ _ _ hc
      have hnotin : key x ∉ created := by
        intro hmem
        have := hinv.2.1 (key x) hmem
        rw [hl] at this
        exact absurd this (by simp)
      have hlook : lookupKey (dict ++ [(key x, xa)]) (key x) = some xa := by
        rw [lookupKey_none_append _ hl, lookupKey_single]
        simp
      refine ⟨⟨?_, ?_, ?_⟩, ?_, ?_⟩
      · cases idOpt with
        | none => simpa using hinv.1
        | some i =>
          simp only [List.nodup_append, List.nodup_cons]
          refine ⟨hinv.1, by simp, ?_⟩
          intro a ha hax
          simp at hax
          subst hax
          exact hnotin ha
      · intro k hk2
        have hold : k ∈ created → (lookupKey (dict ++ [(key x, xa)]) k).isSome := by
          intro hmem
          have := hinv.2.1 k hmem
          cases hlk : lookupKey dict k with
          | none => rw [hlk] at this; exact absurd this (by simp)
          | some v => rw [lookupKey_mono _ hlk]; simp
        cases idOpt with
        | none =>
          simp only [List.append_nil] at hk2
          exact hold hk2
        | some i =>
          simp only [List.mem_append, List.mem_singleton] at hk2
          rcases hk2 with hk2 | hk2
          · exact hold hk2
          · subst hk2
            rw [hlook]
            simp
      · intro p hp
        simp only [List.mem_append, List.mem_singleton] at hp
        rcases hp with hp | hp
        · exact hinv.2.2 p hp
        · subst hp
          exact hk
      · intro k v hv
        exact lookupKey_mono _ hv
      · rw [hk]
        exact hlook

/-- The dedup loop preserves the invariant, extends the dict, and leaves
every returned item stored under its own key. -/
theorem dedupFold_spec {κ α : Type} [DecidableEq κ] (key : α → κ)
    (create : SModel → α → Except PyErr (SModel × α × Option Nat))
    (hkey : ∀ m x m2 x2 i, create m x = .ok (m2, x2, i) → key x2 = key x) :
    ∀ (xs : List α) (m : SModel) (dict : List (κ × α)) (created : List κ)
      (m2 : SModel) (dict2 : List (κ × α)) (created2 : List κ) (xs2 : List α),
    DedupInv key dict created →
    dedupFold key create xs m dict created = .ok (m2, dict2, created2, xs2) →
    DedupInv key dict2 created2 ∧ MapExtends dict dict2 ∧
      ∀ y ∈ xs2, lookupKey dict2 (key y) = some y := by
  intro xs
  induction xs with
  | nil =>
    intro m dict created m2 dict2 created2 xs2 hinv h
    simp only [dedupFold, Except.ok.injEq, Prod.mk.injEq] at h
    obtain ⟨hm, hd, hcr, hx⟩ := h
    rw [← hd, ← hcr, ← hx]
    exact ⟨hinv, mapExtends_refl _, by simp⟩
  | cons x xs ih =>
    intro m dict created m2 dict2 created2 xs2 hinv h
    simp only [dedupFold] at h
    cases hs : dedupStep key create m dict created x with
    | error e =>
      rw [hs, exceptBind_error] at h
      exact absurd h (by simp)
    | ok quad =>
      obtain ⟨ma, dicta, createda, xa⟩ := quad
      rw [hs, exceptBind_ok] at h
      cases hf : dedupFold key create xs ma dicta createda with
      | error e =>
        rw [hf, exceptBind_error] at h
        exact absurd h (by simp)
      | ok quad2 =>
        obtain ⟨mb, dictb, createdb, xsb⟩ := quad2
        rw [hf, exceptBind_ok] at h
        simp only [Except.ok.injEq, Prod.mk.injEq] at h
        obtain ⟨hm, hd, hcr, hx⟩ := h
        rw [← hd, ← hcr, ← hx]
        obtain ⟨hinva, hexta, hxa⟩ :=
          dedupStep_spec key create hkey m dict created x ma dicta createda
            xa hinv hs
        obtain ⟨hinvb, hextb, hxsb⟩ :=
          ih ma dicta createda mb dictb createdb xsb hinva hf
        refine ⟨hinvb, mapExtends_trans hexta hextb, ?_⟩
        intro y hy
        rcases List.mem_cons.mp hy with rfl | hy2
        · exact hextb _ _ hxa
        · exact hxsb y hy2

/-- Creating a category node does not change the category's name key. -/
theorem createCategoryObj_key (sink : Sink) :
    ∀ m c m2 c2 i, createCategoryObj sink m c = .ok (m2, c2, i) →
      catKey c2 = catKey c := by
  intro m c m2 c2 i h
  unfold createCategoryObj at h
  cases ha : categoryAssetType c with
  | error e => rw [ha, exceptBind_error] at h; exact absurd h (by simp)
  | ok assetType =>
    rw [ha, exceptBind_ok] at h
    dsimp only at h
    cases hp : parserCreateObject sink m assetType
        (match catKey c with
          | some (.str n) => lastDotSegment n
          | _ => "") with
    | mk mm ii =>
      rw [hp] at h
      simp only [Except.ok.injEq, Prod.mk.injEq] at h
      rw [← h.2.1]
      rfl

/-- Creating an action node does not change the action's name key. -/
theorem createActionObj_key (sink : Sink) :
    ∀ m a m2 a2 i, createActionObj sink m a = .ok (m2, a2, i) →
      actKey a2 = actKey a := by
  intro m a m2 a2 i h
  unfold createActionObj at h
  cases ha : actionAssetType a with
  | error e => rw [ha, exceptBind_error] at h; exact absurd h (by simp)
  | ok assetType =>
    rw [ha, exceptBind_ok] at h
    dsimp only at h
    cases hp : parserCreateObject sink m assetType
        (match actKey a with
          | some (.str n) => lastDotSegment n
          | _ => "") with
    | mk mm ii =>
      rw [hp] at h
      simp only [Except.ok.injEq, Prod.mk.injEq] at h
      rw [← h.2.1]
      rfl

/-- Creating a URI node does not change the URI's name. -/
theorem createUriObj_key (sink : Sink) :
    ∀ m u m2 u2 i, createUriObj sink m u = .ok (m2, u2, i) →
      URID.name u2 = URID.name u := by
  intro m u m2 u2 i h
  unfold createUriObj at h
  dsimp only at h
  cases hp : parserCreateObject sink m "Data" (lastDotSegment u.name) with
  | mk mm ii =>
    rw [hp] at h
    simp only [Except.ok.injEq, Prod.mk.injEq] at h
    rw [← h.2.1]

/-- The dedup invariant for all three per-application dicts. -/
def AppInv (st : AppSt) : Prop :=
  DedupInv catKey st.catDict st.createdCats ∧
  DedupInv actKey st.actDict st.createdActs ∧
  DedupInv URID.name st.uriDict st.createdUris

/-- `IntentFilter.create_scad_objects` preserves the dedup invariant, only
extends the application's dicts, and leaves every declaration of the
processed filter referencing the object stored under its name. -/
theorem intentFilterCreateScad_spec (sink : Sink) (st : AppSt)
    (f : IntentFilterD) (st2 : AppSt) (f2 : IntentFilterD)
    (hinv : AppInv st)
    (h : intentFilterCreateScad sink st f = .ok (st2, f2)) :
    AppInv st2 ∧ MapExtends st.catDict st2.catDict ∧
      MapExtends st.actDict st2.actDict ∧
      MapExtends st.uriDict st2.uriDict ∧
      (∀ c ∈ f2.categories, lookupKey st2.catDict (catKey c) = some c) ∧
      (∀ a ∈ f2.actions, lookupKey st2.actDict (actKey a) = some a) ∧
      (∀ u ∈ f2.uris, lookupKey st2.uriDict (URID.name u) = some u) := by
  unfold intentFilterCreateScad at h
  cases hp : parserCreateObject sink st.model "IntentFilter" "IntentFilter" with
  | mk m1 fid =>
    rw [hp] at h
    dsimp only at h
    cases hc : dedupFold catKey (createCategoryObj sink) f.categories m1
        st.catDict st.createdCats with
    | error e => rw [hc, exceptBind_error] at h; exact absurd h (by simp)
    | ok qc =>
      obtain ⟨m2, catDict2, createdCats2, cats2⟩ := qc
      rw [hc, exceptBind_ok] at h
      dsimp only at h
      cases hac : dedupFold actKey (createActionObj sink) f.actions m2
          st.actDict st.createdActs with
      | error e => rw [hac, exceptBind_error] at h; exact absurd h (by simp)
      | ok qa =>
        obtain ⟨m3, actDict2, createdActs2, acts2⟩ := qa
        rw [hac, exceptBind_ok] at h
        dsimp only at h
        cases hu : dedupFold URID.name (createUriObj sink) f.uris m3
            st.uriDict st.createdUris with
        | error e => rw [hu, exceptBind_error] at h; exact absurd h (by simp)
        | ok qu =>
          obtain ⟨m4, uriDict2, createdUris2, uris2⟩ := qu
          rw [hu, exceptBind_ok] at h
          dsimp only at h
          simp only [Except.ok.injEq, Prod.mk.injEq] at h
          obtain ⟨hst, hf⟩ := h
          obtain ⟨hcinv, hcext, hcref⟩ :=
            dedupFold_spec catKey (createCategoryObj sink)
              (createCategoryObj_key sink) f.categories m1 st.catDict
              st.createdCats m2 catDict2 createdCats2 cats2 hinv.1 hc
          obtain ⟨hainv, haext, haref⟩ :=
            dedupFold_spec actKey (createActionObj sink)
              (createActionObj_key sink) f.actions m2 st.actDict
              st.createdActs m3 actDict2 createdActs2 acts2 hinv.2.1 hac
          obtain ⟨huinv, huext, huref⟩ :=
            dedupFold_spec URID.name (createUriObj sink)
              (createUriObj_key sink) f.uris m3 st.uriDict
              st.createdUris m4 uriDict2 createdUris2 uris2 hinv.2.2 hu
          rw [← hst, ← hf]
          exact ⟨⟨hcinv, hainv, huinv⟩, hcext, haext, huext, hcref, haref,
            huref⟩

/-- The whole create pass over an application's intent filters preserves
the dedup invariant and leaves every declaration of every processed
filter referencing the object stored under its name in the final dicts. -/
theorem runFilters_spec (sink : Sink) :
    ∀ (fs : List IntentFilterD) (st : AppSt) (st2 : AppSt)
      (fs2 : List IntentFilterD),
    AppInv st → runFilters sink fs st = .ok (st2, fs2) →
    AppInv st2 ∧ MapExtends st.catDict st2.catDict ∧
      MapExtends st.actDict st2.actDict ∧
      MapExtends st.uriDict st2.uriDict ∧
      ∀ f2 ∈ fs2,
        (∀ c ∈ f2.categories, lookupKey st2.catDict (catKey c) = some c) ∧
        (∀ a ∈ f2.actions, lookupKey st2.actDict (actKey a) = some a) ∧
        (∀ u ∈ f2.uris, lookupKey st2.uriDict (URID.name u) = some u) := by
  intro fs
  induction fs with
  | nil =>
    intro st st2 fs2 hinv h
    simp only [runFilters, Except.ok.injEq, Prod.mk.injEq] at h
    obtain ⟨hst, hf⟩ := h
    rw [← hst, ← hf]
    exact ⟨hinv, mapExtends_refl _, mapExtends_refl _, mapExtends_refl _,
      by simp⟩
  | cons f fs ih =>
    intro st st2 fs2 hinv h
    simp only [runFilters] at h
    cases hs : intentFilterCreateScad sink st f with
    | error e => rw [hs, exceptBind_error] at h; exact absurd h (by simp)
    | ok p =>
      obtain ⟨sta, fa⟩ := p
      rw [hs, exceptBind_ok] at h
      cases hr : runFilters sink fs sta with
      | error e => rw [hr, exceptBind_error] at h; exact absurd h (by simp)
      | ok p2 =>
        obtain ⟨stb, fsb⟩ := p2
        rw [hr, exceptBind_ok] at h
        simp only [Except.ok.injEq, Prod.mk.injEq] at h
        obtain ⟨hst, hf⟩ := h
        rw [← hst, ← hf]
        obtain ⟨hinva, hcext1, haext1, huext1, hcref, haref, huref⟩ :=
          intentFilterCreateScad_spec sink st f sta fa hinv hs
        obtain ⟨hinvb, hcext2, haext2, huext2, hrefs⟩ :=
          ih sta stb fsb hinva hr
        refine ⟨hinvb, mapExtends_trans hcext1 hcext2,
          mapExtends_trans haext1 haext2, mapExtends_trans huext1 huext2, ?_⟩
        intro f2 hf2
        rcases List.mem_cons.mp hf2 with rfl | hf2b
        · exact ⟨fun c hc => hcext2 _ _ (hcref c hc),
            fun a ha => haext2 _ _ (haref a ha),
            fun u hu => huext2 _ _ (huref u hu)⟩
        · exact hrefs f2 hf2b

/-- C9: across the whole create pass, the per-application dedup dicts keep
graph-node creations unique per category name, per action name and per URI
string — and every declaration in every processed filter ends up
referencing exactly the object stored under its name, so two components
declaring the same name share one node. -/
theorem claim_C9_create_pass_dedup (sink : Sink) (m0 : SModel)
    (fs fs2 : List IntentFilterD) (st2 : AppSt)
    (h : runFilters sink fs ⟨m0, [], [], [], [], [], []⟩ = .ok (st2, fs2)) :
    st2.createdCats.Nodup ∧ st2.createdActs.Nodup ∧
      st2.createdUris.Nodup ∧
      ∀ f2 ∈ fs2,
        (∀ c ∈ f2.categories, lookupKey st2.catDict (catKey c) = some c) ∧
        (∀ a ∈ f2.actions, lookupKey st2.actDict (actKey a) = some a) ∧
        (∀ u ∈ f2.uris, lookupKey st2.uriDict (URID.name u) = some u) := by
  have hinit : AppInv ⟨m0, [], [], [], [], [], []⟩ := by
    refine ⟨⟨List.nodup_nil, ?_, ?_⟩, ⟨List.nodup_nil, ?_, ?_⟩,
      ⟨List.nodup_nil, ?_, ?_⟩⟩ <;> simp [lookupKey]
  obtain ⟨hinv2, hce, hae, hue, hrefs⟩ :=
    runFilters_spec sink fs _ st2 fs2 hinit h
  exact ⟨hinv2.1.1, hinv2.2.1.1, hinv2.2.2.1, hrefs⟩

/-- First witness filter: an activity filter declaring
`android.intent.category.DEFAULT`. -/
def c9f1 : IntentFilterD :=
  mkIntentFilter "activity" (.int 0) (.int 0) []
    [⟨[("name", .str "android.intent.category.DEFAULT")], none⟩] []

/-- Second witness filter: a receiver filter declaring the same category
name. -/
def c9f2 : IntentFilterD :=
  mkIntentFilter "receiver" (.int 0) (.int 0) []
    [⟨[("name", .str "android.intent.category.DEFAULT")], none⟩] []

/-- Witness for `claim_C9_create_pass_dedup`: two filters in two different
components both declare `android.intent.category.DEFAULT`; exactly one
Category node is created, and both output filters reference the stored
object. -/
theorem claim_C9_witness :
    ∃ st2 fs2,
      runFilters sinkAny [c9f1, c9f2] ⟨{}, [], [], [], [], [], []⟩
        = .ok (st2, fs2) ∧
      st2.createdCats.Nodup ∧
      st2.createdCats = [some (.str "android.intent.category.DEFAULT")] ∧
      ∀ f2 ∈ fs2, ∀ c ∈ f2.categories,
        lookupKey st2.catDict (catKey c) = some c := by
  refine ⟨_, _, rfl, ?_, ?_, ?_⟩
  · exact (claim_C9_create_pass_dedup sinkAny {} [c9f1, c9f2] _ _ rfl).1
  · rfl
  · exact fun f2 hf2 =>
      ((claim_C9_create_pass_dedup sinkAny {} [c9f1, c9f2] _ _ rfl).2.2.2
        f2 hf2).1

/-! ## Manifest pipeline (`manifest.py`, `application.py`, component parsers) -/

/-- `mapM` for `Except`, written structurally for easy case analysis. -/
def mapME {α β : Type} (f : α → Except PyErr β) : List α → Except PyErr (List β)
  | [] => .ok []
  | x :: xs => do
    let y ← f x
    let ys ← mapME f xs
    .ok (y :: ys)

/-- `Action.from_xml` (the attribute parse can raise). -/
def actionFromXml (e : Elem) : Except PyErr ActionD := do
  let a ← getAttributesE e
  .ok ⟨a, none⟩

/-- `Category.from_xml` (the attribute parse can raise). -/
def categoryFromXml (e : Elem) : Except PyErr CategoryD := do
  let a ← getAttributesE e
  .ok ⟨a, none⟩

/-- Render an attribute value into the `Option String` form the `Data`
fields use (non-string manifests values are rendered the way the source's
f-strings would; see the header note). -/
def optRender (v : Option PyVal) : Option String :=
  v.map PyVal.render

/-- The `<data>` handling inside `IntentFilter.from_xml`.  Note the source
slip on the host line: `_host=data_attribs.get("scheme")` — the host field
is read from the `scheme` attribute, not from `host`. -/
def dataFromXml (e : Elem) : Except PyErr DataD := do
  let a ← getAttributesE e
  .ok (dataPostInit
    { scheme :=
        match a.get "scheme" with
        | some v => .str v.render
        | none => .none
      host := optRender (a.get "scheme")
      port := optRender (a.get "port")
      path := optRender (a.get "path")
      pathPattern := optRender (a.get "pathPattern")
      pathPfx := optRender (a.get "pathPrefix")
      mimeType := optRender (a.get "mimeType") })

/-- `IntentFilter.from_xml`. -/
def intentFilterFromXml (e : Elem) (parentType : String) :
    Except PyErr IntentFilterD := do
  let attribs ← getAttributesE e
  let actions ← mapME actionFromXml (e.findall "action")
  let categories ← mapME categoryFromXml (e.findall "category")
  let data ← mapME dataFromXml (e.findall "data")
  .ok (mkIntentFilter parentType
    (attribs.getD "priority" (.int 0)) (attribs.getD "order" (.int 0))
    actions categories data)

/-- `IntentFilter.collect_intent_filters`. -/
def collectIntentFilters (parent : Elem) : Except PyErr (List IntentFilterD) :=
  mapME (fun f => intentFilterFromXml f parent.tag)
    (parent.findall "intent-filter")

/-- The shared shape of the four component dataclasses (the variant tag is
kept in `kind`). -/
structure ComponentD where
  kind : String
  attributes : Attrs
  metaDatas : List Attrs := []
  intentFilters : List IntentFilterD := []
  processName : Option String := none
  processIsPrivate : Bool := false
  foregroundServiceTypes : List String := []
  pathPermissions : List Attrs := []
  grantUriPermissions : List Attrs := []

/-- `BaseComponent.__post_init__`: a truthy `process` attribute must be a
string (indexing `[0]` into a truthy non-string raises `TypeError`); its
leading `:` marks a private process; then `enabled`/`exported` defaults
are installed.  (The parent wiring of filters and meta-data is a pure
back-reference and is not represented.) -/
def basePostInit (c : ComponentD) : Except PyErr ComponentD := do
  let c ←
    match c.attributes.get "process" with
    | some v =>
      if v.truthy then
        match v with
        | .str s =>
          .ok { c with
                processIsPrivate := decide (s.data.headD ' ' = Char.ofNat 58)
                processName := some s }
        | _ => .error .typeError
      else .ok c
    | none => .ok c
  .ok { c with attributes :=
        ((c.attributes.setdefault "enabled" (.bool true)).setdefault
          "exported" (.bool false)) }

/-- `Activity.from_xml` (`activity.py`): attribute defaults, meta-data,
intent filters, then the dataclass construction (whose post-init is just
the base one). -/
def activityFromXml (e : Elem) : Except PyErr ComponentD := do
  let attribs ← getAttributesE e
  let attribs := attribs.setdefault "directBootAware" (.bool false)
  let attribs := attribs.setdefault "allowEmbedded" (.bool false)
  let attribs := attribs.setdefault "allowTakReparenting" (.bool false)
  let attribs := attribs.setdefault "alwaysRetainTaskState" (.bool false)
  let attribs := attribs.setdefault "clearTaskOnLaunch" (.bool false)
  let attribs := attribs.setdefault "finishOnTaskLaunch" (.bool false)
  let attribs := attribs.setdefault "multiprocess" (.bool false)
  let metaDatas ← mapME getAttributesE (e.findall "meta-data")
  let intentFilters ← collectIntentFilters e
  basePostInit
    { kind := "activity", attributes := attribs,
      metaDatas := metaDatas, intentFilters := intentFilters }

/-- `Service.from_xml` (`service.py`), including its exported rule
(`exported` becomes true only when filters exist and the attribute is
literally absent) and the `Service.__post_init__` steps: a present
non-string `foregroundServiceType` raises `AttributeError`
(`.split` on a non-string); `isolatedProcess` defaults to false. -/
def serviceFromXml (e : Elem) : Except PyErr ComponentD := do
  let attribs ← getAttributesE e
  let attribs := attribs.setdefault "enabled" (.bool true)
  let attribs := attribs.setdefault "directBootAware" (.bool false)
  let attribs := attribs.setdefault "fullBackupOnly" (.bool false)
  let intentFilters ← collectIntentFilters e
  let attribs :=
    if ¬ intentFilters.isEmpty ∧ attribs.get "exported" = none then
      dictInsert attribs "exported" (.bool true)
    else attribs.setdefault "exported" (.bool false)
  let metaDatas ← mapME getAttributesE (e.findall "meta-data")
  let c ← basePostInit
    { kind := "service", attributes := attribs,
      metaDatas := metaDatas, intentFilters := intentFilters }
  let fst ←
    match c.attributes.get "foregroundServiceType" with
    | some (.str s) => .ok ((splitOnChar (Char.ofNat 124) s))
    | some _ => .error .attributeError
    | none => .ok (splitOnChar (Char.ofNat 124) "")
  .ok { c with
        foregroundServiceTypes := fst,
        attributes := c.attributes.setdefault "isolatedProcess" (.bool false) }

/-- `Receiver.from_xml` (`receiver.py`): its exported rule differs from the
service one — `exported` becomes true when filters exist and the attribute
is falsy. -/
def receiverFromXml (e : Elem) : Except PyErr ComponentD := do
  let attribs ← getAttributesE e
  let attribs := attribs.setdefault "enabled" (.bool true)
  let attribs := attribs.setdefault "directBootAware" (.bool false)
  let intentFilters ← collectIntentFilters e
  let attribs :=
    if ¬ intentFilters.isEmpty ∧
        ¬ ((attribs.getD "exported" (.bool false)).truthy) then
      dictInsert attribs "exported" (.bool true)
    else attribs.setdefault "exported" (.bool false)
  let metaDatas ← mapME getAttributesE (e.findall "meta-data")
  basePostInit
    { kind := "receiver", attributes := attribs,
      metaDatas := metaDatas, intentFilters := intentFilters }

/-- `Provider.from_xml` (`provider.py`) with `Provider.__post_init__`:
`grantUriPermissions` defaults to false and is forced true when
`grant-uri-permission` children exist. -/
def providerFromXml (e : Elem) : Except PyErr ComponentD := do
  let attribs ← getAttributesE e
  let attribs := attribs.setdefault "allowEmbedded" (.bool false)
  let attribs := attribs.setdefault "allowTaskReparenting" (.bool false)
  let attribs := attribs.setdefault "directBootAware" (.bool false)
  let attribs := attribs.setdefault "enabled" (.bool true)
  let attribs := attribs.setdefault "multiprocess" (.bool false)
  let metaDatas ← mapME getAttributesE (e.findall "meta-data")
  let intentFilters ← collectIntentFilters e
  let pathPermissions ← mapME getAttributesE (e.findall "path-permission")
  let grantUris ← mapME getAttributesE (e.findall "grant-uri-permission")
  let c ← basePostInit
    { kind := "provider", attributes := attribs,
      metaDatas := metaDatas, intentFilters := intentFilters,
      pathPermissions := pathPermissions,
      grantUriPermissions := grantUris }
  let attribs := c.attributes.setdefault "grantUriPermissions" (.bool false)
  let attribs :=
    if ¬ grantUris.isEmpty then
      dictInsert attribs "grantUriPermissions" (.bool true)
    else attribs
  .ok { c with attributes := attribs }

/-- The `Application` dataclass fields the claims need. -/
structure ApplicationD where
  attributes : Attrs
  activities : List ComponentD := []
  providers : List ComponentD := []
  services : List ComponentD := []
  receivers : List ComponentD := []
  processIsPrivate : Bool := false
  uidName : Option PyVal := none

/-- `Application.__post_init__`: the `process` attribute check (same
`[0]`-indexing rule as components), the UID name
(`attributes.get("process", self.name)`), and the
`allowTaskReparenting` propagation to activities — which, when it actually
fires, raises `AttributeError`, because the activity property's setter was
registered under the misspelled name `allow_tak_reparenting`, leaving
`allow_task_reparenting` read-only. -/
def applicationPostInit (a : ApplicationD) : Except PyErr ApplicationD := do
  let a ←
    match a.attributes.get "process" with
    | some v =>
      if v.truthy then
        match v with
        | .str s =>
          let priv := decide (s.data.headD ' ' = Char.ofNat 58)
          .ok { a with processIsPrivate := priv }
        | _ => .error .typeError
      else .ok a
    | none => .ok a
  let uid :=
    match a.attributes.get "process" with
    | some v => some v
    | none => a.attributes.get "name"
  let a := { a with uidName := uid }
  if (a.attributes.getD "allowTaskReparenting" (.bool false)).truthy ∧
      a.activities.any (fun act =>
        ¬ (act.attributes.getD "allowTaskReparenting" (.bool false)).truthy) then
    .error .attributeError
  else
    .ok a

/-- `Application.from_xml`: attribute defaults, the four component
collections, then the dataclass construction. -/
def applicationFromXml (e : Elem) : Except PyErr ApplicationD := do
  let attribs ← getAttributesE e
  let attribs := attribs.setdefault "enabled" (.bool true)
  let attribs := attribs.setdefault "fullBackupOnly" (.bool false)
  let attribs := attribs.setdefault "allowTaskReparenting" (.bool false)
  let attribs := attribs.setdefault "debuggable" (.bool false)
  let attribs := attribs.setdefault "allowClearUserData" (.bool true)
  let attribs := attribs.setdefault "allowNativeHeapPointerTagging" (.bool true)
  let attribs := attribs.setdefault "hasFragileUserData" (.bool false)
  let providers ← mapME providerFromXml (e.findall "provider")
  let services ← mapME serviceFromXml (e.findall "service")
  let receivers ← mapME receiverFromXml (e.findall "receiver")
  let activities ← mapME activityFromXml (e.findall "activity")
  applicationPostInit
    { attributes := attribs, activities := activities,
      providers := providers, services := services, receivers := receivers }

/-- `Application.collect_applications`: `tag.find("application")` followed
by `if application:` — an `ElementTree` element is falsy when it has no
children, so both a missing application tag and a childless one raise
`ComponentNotFound`. -/
def collectApplications (tag : Elem) : Except PyErr ApplicationD :=
  match tag.find "application" with
  | some app =>
    if app.truthy then applicationFromXml app else .error .componentNotFound
  | none => .error .componentNotFound

/-- Modelled from the spec: `android_parser/utilities/constants.py` is not
in the source tree; the spec says API levels default to a configured
minimum/maximum.  The concrete values are arbitrary — no claim depends on
them. -/
def MIN_SDK_VERSION : Int := 1

/-- Modelled from the spec; see `MIN_SDK_VERSION`. -/
def MAX_SDK_VERSION : Int := 33

/-- What `get_sdk_versions` returns: its `uses_sdk == None` branch returns
a two-element tuple, every other path a three-element one. -/
inductive SdkTuple : Type where
  | two (minSdk targetSdk : Int)
  | three (minSdk targetSdk : Int) (apiLevels : List Int)
  deriving Repr

/-- A value usable as a `range(...)` endpoint: Python `int` (and `bool`,
an `int` subclass); anything else raises `TypeError`. -/
def pyIntLike : PyVal → Except PyErr Int
  | .int n => .ok n
  | .bool b => .ok (if b then 1 else 0)
  | _ => .error .typeError

/-- Python `range(a, b)` as a list. -/
def intRange (a b : Int) : List Int :=
  (List.range (b - a).toNat).map (fun i => a + i)

/-- `get_sdk_versions` (inside `Manifest.from_xml`): with no `uses-sdk`
element it logs and returns the two-element tuple
`(min_sdk, target_sdk)`; otherwise it reads the attributes (defaulting to
the configured constants) and returns the three-element tuple including
`range(min_sdk, target_sdk + 1)`. -/
def getSdkVersions (usesSdk : Option Elem) : Except PyErr SdkTuple :=
  match usesSdk with
  | none => .ok (.two MIN_SDK_VERSION MAX_SDK_VERSION)
  | some e => do
    let attribs ← getAttributesE e
    let minSdk ← pyIntLike (attribs.getD "minSdkVersion" (.int MIN_SDK_VERSION))
    let targetSdk ←
      pyIntLike (attribs.getD "targetSdkVersion" (.int MAX_SDK_VERSION))
    .ok (.three minSdk targetSdk (intRange minSdk (targetSdk + 1)))

/-- The `Manifest` record as constructed by `Manifest.from_xml`. -/
structure ManifestD where
  attributes : Attrs
  minSdkVersion : Int
  targetSdkVersion : Int
  apiLevels : List Int
  application : ApplicationD
  usesPermissions : List Attrs := []
  usesPermissions23 : List Attrs := []
  permissions : List Attrs := []
  permissionGroups : List Attrs := []
  permissionTrees : List Attrs := []
  package : Option PyVal := none

/-- `Manifest.__post_init__`: reads the package (a missing one only logs a
fatal message), wires parent back references (always succeeds), and then
calls `self.application.create_app_storage()` — but neither `Application`
nor its `Base` superclass defines `create_app_storage` (it is a
`FileSystem` method), so the attribute lookup raises `AttributeError` on
every instance, before `__init__` can ever return. -/
def manifestPostInit (_m : ManifestD) : Except PyErr ManifestD :=
  .error .attributeError

/-- `Manifest.from_xml` / `collect_manifest`: attributes, SDK versions
(the three-name unpacking of `get_sdk_versions`' result raises
`ValueError` when the two-element tuple comes back), the permission
collections, the application, then the dataclass construction whose
post-init runs. -/
def manifestFromXml (e : Elem) : Except PyErr ManifestD := do
  let attribs ← getAttributesE e
  let sdk ← getSdkVersions (e.find "uses-sdk")
  let (minSdk, targetSdk, apiLevels) ←
    match sdk with
    | .three a b l => (.ok (a, b, l) : Except PyErr (Int × Int × List Int))
    | .two _ _ => .error .valueError
  let usesPermissions ← mapME getAttributesE (e.findall "uses-permission")
  let permissions ← mapME (fun p => do
    let a ← getAttributesE p
    .ok (a.setdefault "protectionLevel" (.str "signature")))
    (e.findall "permission")
  let permissionGroups ← mapME getAttributesE (e.findall "permission-group")
  let permissionTrees ← mapME getAttributesE (e.findall "permission-tree")
  let usesPermissions23 ←
    mapME getAttributesE (e.findall "uses-permission-sdk-23")
  let application ← collectApplications e
  manifestPostInit
    { attributes := attribs, minSdkVersion := minSdk,
      targetSdkVersion := targetSdk, apiLevels := apiLevels,
      application := application, usesPermissions := usesPermissions,
      usesPermissions23 := usesPermissions23, permissions := permissions,
      permissionGroups := permissionGroups,
      permissionTrees := permissionTrees,
      package := attribs.get "package" }

/-- Whether an embedded computation completed normally. -/
def exceptIsOk : Except PyErr ManifestD → Bool
  | .ok _ => true
  | .error _ => false

/-- The C1 scenario's intent filter:
`action=android.intent.action.VIEW`,
`category=android.intent.category.DEFAULT`,
`data scheme=http host=example.com`. -/
def c1FilterElem : Elem :=
  .mk "intent-filter" []
    [.mk "action" [("name", "android.intent.action.VIEW")] [],
     .mk "category" [("name", "android.intent.category.DEFAULT")] [],
     .mk "data" [("scheme", "http"), ("host", "example.com")] []]

/-- The C1 scenario's exported activity. -/
def c1ActivityElem : Elem :=
  .mk "activity"
    [("name", "com.example.MainActivity"), ("exported", "true")]
    [c1FilterElem]

/-- The C1 scenario's manifest (package `com.example.app`, one exported
activity, no `uses-sdk` element — the claim's manifest declares none). -/
def c1ManifestElem : Elem :=
  .mk "manifest" [("package", "com.example.app")]
    [.mk "application" [] [c1ActivityElem]]

/-- The same manifest with a `uses-sdk` element added, to exhibit the crash
that occurs after the SDK handling succeeds. -/
def c1ManifestSdkElem : Elem :=
  .mk "manifest" [("package", "com.example.app")]
    [.mk "uses-sdk" [("minSdkVersion", "21"), ("targetSdkVersion", "23")] [],
     .mk "application" [] [c1ActivityElem]]

/-- C1: the claimed end-to-end compilation never happens.  Parsing the
claim's manifest raises `ValueError` (no `uses-sdk`: `get_sdk_versions`
returns a 2-tuple unpacked into three names); with a `uses-sdk` element it
raises `AttributeError` (`Manifest.__post_init__` calls the nonexistent
`Application.create_app_storage`).  Independently, the URI the filter
derives is `http://http/['None*']` — the host is read from the `scheme`
attribute (`_host=data_attribs.get("scheme")`) and `__get_paths()`'s
always-truthy `f"{path_prefix}*"` entry renders the path list's `repr` —
not the claimed `http://example.com/`. -/
theorem claim_C1_end_to_end :
    manifestFromXml c1ManifestElem = .error .valueError ∧
    manifestFromXml c1ManifestSdkElem = .error .attributeError ∧
    (intentFilterFromXml c1FilterElem "activity").map
        (fun f => f.uris.map URID.name)
      = .ok ["http://http/[" ++ sq ++ "None*" ++ sq ++ "]"] ∧
    "http://http/[" ++ sq ++ "None*" ++ sq ++ "]" ≠ "http://example.com/" := by
  refine ⟨rfl, rfl, rfl, by decide⟩

/-- C2 counterexample: a well-formed manifest element with an application
tag (with a child) but no `uses-sdk` element raises `ValueError`, not the
claimed `AttributeError` — the 2-tuple unpacking in `Manifest.from_xml`
fails before the `Manifest` is ever constructed. -/
theorem claim_C2_counterexample :
    (c1ManifestElem.find "application").isSome = true ∧
    manifestFromXml c1ManifestElem = .error .valueError ∧
    manifestFromXml c1ManifestElem ≠ .error .attributeError := by
  refine ⟨rfl, rfl, ?_⟩
  intro h
  rw [show manifestFromXml c1ManifestElem = .error .valueError from rfl] at h
  exact absurd h (by simp)

/-- C2 (amended): constructing a `Manifest` indeed never completes
normally for any input descriptor — `Manifest.__post_init__`
unconditionally calls the nonexistent `Application.create_app_storage`, so
every path that reaches construction raises `AttributeError` — but the
exception on descriptors that never reach construction differs: without a
`uses-sdk` element `from_xml` raises `ValueError` first, and a missing or
childless application tag raises `ComponentNotFound`. -/
theorem claim_C2_never_completes :
    (∀ e : Elem, exceptIsOk (manifestFromXml e) = false) ∧
    (∀ md : ManifestD, manifestPostInit md = .error .attributeError) := by
  refine ⟨?_, fun md => rfl⟩
  intro e
  unfold manifestFromXml
  cases hg : getAttributesE e with
  | error err => rfl
  | ok attribs =>
    cases hs : getSdkVersions (e.find "uses-sdk") with
    | error err => rfl
    | ok sdk =>
      cases sdk with
      | two a b => rfl
      | three a b l =>
        cases hup : mapME getAttributesE (e.findall "uses-permission") with
        | error err => rfl
        | ok usesPermissions =>
          cases hperm : mapME (fun p => do
              let a ← getAttributesE p
              (.ok (a.setdefault "protectionLevel" (.str "signature")) :
                Except PyErr Attrs)) (e.findall "permission") with
          | error err => rfl
          | ok permissions =>
            cases hpg : mapME getAttributesE (e.findall "permission-group") with
            | error err => rfl
            | ok permissionGroups =>
              cases hpt : mapME getAttributesE
                  (e.findall "permission-tree") with
              | error err => rfl
              | ok permissionTrees =>
                cases hu23 : mapME getAttributesE
                    (e.findall "uses-permission-sdk-23") with
                | error err => rfl
                | ok usesPermissions23 =>
                  cases ha : collectApplications e with
                  | error err => rfl
                  | ok app => rfl

/-- C5: when the descriptor has no `uses-sdk` element, manifest
construction does not succeed with the configured defaults: the
`uses_sdk == None` branch of `get_sdk_versions` returns the two-element
tuple `(min_sdk, target_sdk)`, and the call site unpacks three names, so
`Manifest.from_xml` raises `ValueError` — shown here on the concrete C1
manifest, which has no `uses-sdk`. -/
theorem claim_C5_missing_uses_sdk :
    c1ManifestElem.find "uses-sdk" = none ∧
    getSdkVersions (c1ManifestElem.find "uses-sdk")
      = .ok (.two MIN_SDK_VERSION MAX_SDK_VERSION) ∧
    manifestFromXml c1ManifestElem = .error .valueError := by
  refine ⟨rfl, rfl, rfl⟩

end AndroidParser
